import Mathlib

/-!
Verification development for the chat-trimmer chat compression pipeline.

The definitions below are a shallow embedding of the JavaScript sources:
  - `src/scripts/utils/message-parser.js`  → namespace `MessageParser`
  - `src/scripts/algorithms/combat-detector.js` → namespace `CombatDetector`
  - `src/scripts/trimmer.js` → namespace `ChatTrimmer`
  - the archive manager (appendToArchive) → namespace `ArchiveManager`

Modelling conventions:
  - JS strings are Lean `String`; `String.prototype.includes` is `strIncludes`;
    `toLowerCase` is `strToLower`; the DOM-based `stripHTML` (innerHTML →
    textContent) is modelled as removal of `<...>` tag regions.
  - The handful of regular expressions used by the source are implemented as
    explicit character scanners replicating the behaviour of the concrete
    pattern on the inputs the code feeds it (leftmost match, greedy pieces).
  - JS `undefined`/`null` optional fields become `Option`, except optional
    strings, which are modelled as `String` with `""` for absent, matching the
    JS truthiness tests (`if (s)`) used on them by the source.
  - Global game state (`game.combat`, `game.actors`, `game.scenes`,
    `game.settings`) is threaded through as an explicit `GameCtx` record.
  - Nondeterministic entry ids (`foundry.utils.randomID()`) and the purely
    presentational entry fields (icon, displayText, sanitized content,
    searchKeywords, rollData) are omitted from the archive-entry model; no
    claim mentions them.
-/

/-- JS truthiness of an optional boolean field (`undefined` and `false` are falsy). -/
def jsTruthy : Option Bool → Bool
  | some b => b
  | none => false

/-- JS truthiness of an optional numeric field (`undefined`, `null` and `0` are falsy). -/
def jsTruthyNum : Option Int → Bool
  | some n => n != 0
  | none => false

/-- List of characters of a string. -/
def chars (s : String) : List Char := s.toList

/-- Whether `pat` occurs at the start of `hay`. -/
def beginsWith : List Char → List Char → Bool
  | [], _ => true
  | _ :: _, [] => false
  | p :: ps, h :: hs => (p == h) && beginsWith ps hs

/-- Whether `pat` occurs somewhere inside `hay` (JS `String.prototype.includes`). -/
def containsList (pat : List Char) : List Char → Bool
  | [] => beginsWith pat []
  | h :: hs => beginsWith pat (h :: hs) || containsList pat hs

/-- JS `s.includes(pat)`. Lower-casing is applied at call sites exactly where
the source applies `toLowerCase()`. -/
def strIncludes (s : String) (pat : String) : Bool :=
  containsList (chars pat) (chars s)

/-- ASCII lower-casing of a string, character by character (JS `toLowerCase` on
the ASCII contents the source handles). Defined structurally so that it
reduces in the kernel. -/
def strToLower (s : String) : String :=
  String.mk (s.toList.map Char.toLower)

/-- Drops leading whitespace characters. -/
def dropLeadingWS : List Char → List Char
  | [] => []
  | c :: cs => if c.isWhitespace then dropLeadingWS cs else c :: cs

/-- JS `String.prototype.trim`: whitespace removed from both ends. -/
def strTrim (s : String) : String :=
  String.mk ((dropLeadingWS (dropLeadingWS s.toList).reverse).reverse)

/-- Stable insertion of an element into a list ascending by an `Int` key. -/
def insertByKey {α : Type} (key : α → Int) (a : α) : List α → List α
  | [] => [a]
  | b :: l => if key a < key b then a :: b :: l else b :: insertByKey key a l

/-- Stable ascending sort by an `Int` key. Models JS
`Array.prototype.sort((a, b) => key(a) - key(b))`: the JS sort is stable, and
a stable sort under a total preorder is unique, so this structurally recursive
insertion sort computes exactly the JS result. -/
def sortByKey {α : Type} (key : α → Int) (l : List α) : List α :=
  l.foldl (fun acc a => insertByKey key a acc) []

/-- Tag-removal scanner: the boolean argument is true while inside a `<...>` tag.
Models `MessageParser.stripHTML` (DOM `innerHTML` set + `textContent` read). -/
def stripTags : Bool → List Char → List Char
  | _, [] => []
  | true, c :: r => if c == '>' then stripTags false r else stripTags true r
  | false, c :: r => if c == '<' then stripTags true r else c :: stripTags false r

/-- Digits prefix of a character list together with the rest. -/
def takeDigits : List Char → List Char × List Char
  | [] => ([], [])
  | c :: cs =>
    if c.isDigit then
      let p := takeDigits cs
      (c :: p.1, p.2)
    else ([], c :: cs)

/-- Numeric value of a digit list. -/
def digitsToNat (ds : List Char) : Nat :=
  ds.foldl (fun n c => 10 * n + (c.toNat - 48)) 0

/-- Whitespace prefix of a character list together with the rest. -/
def takeSpaces : List Char → List Char × List Char
  | [] => ([], [])
  | c :: cs =>
    if c.isWhitespace then
      let p := takeSpaces cs
      (c :: p.1, p.2)
    else ([], c :: cs)

/-- Matches `\s+` and returns the rest, or fails when no whitespace is present. -/
def matchSpaces1 (cs : List Char) : Option (List Char) :=
  let p := takeSpaces cs
  if p.1.isEmpty then none else some p.2

/-- Matches `\d+` and returns the number and the rest. -/
def matchDigits1 (cs : List Char) : Option (Nat × List Char) :=
  let p := takeDigits cs
  if p.1.isEmpty then none else some (digitsToNat p.1, p.2)

/-- Matches a literal (already lower-cased) pattern at the head of a lower-cased input. -/
def matchLit (pat : String) (cs : List Char) : Option (List Char) :=
  if beginsWith (chars pat) cs then some (cs.drop (chars pat).length) else none

/-- First alternative of a literal list that matches at the head (JS alternation order). -/
def matchAlts (pats : List String) (cs : List Char) : Option (List Char) :=
  match pats with
  | [] => none
  | p :: ps =>
    match matchLit p cs with
    | some rest => some rest
    | none => matchAlts ps cs

/-- Letters-only prefix (`[A-Za-z]+` under the `i` flag) together with the rest. -/
def takeAlpha : List Char → List Char × List Char
  | [] => ([], [])
  | c :: cs =>
    if c.isAlpha then
      let p := takeAlpha cs
      (c :: p.1, p.2)
    else ([], c :: cs)

/-- Prefix of letters and whitespace (`[A-Za-z\s]+`) together with the rest. -/
def takeAlphaSpace : List Char → List Char × List Char
  | [] => ([], [])
  | c :: cs =>
    if c.isAlpha || c.isWhitespace then
      let p := takeAlphaSpace cs
      (c :: p.1, p.2)
    else ([], c :: cs)

/-- JS `[...new Set(l)]`: keep the first occurrence of each element. -/
def jsSetDedup : List String → List String
  | [] => []
  | a :: l => a :: jsSetDedup (l.filter (fun b => b ≠ a))
termination_by l => l.length
decreasing_by
  simp only [List.length_cons]
  exact Nat.lt_succ_of_le (List.length_filter_le _ _)

/-- Replaces the last element of a list (models mutation through the JS
`combat.currentRound` reference into `combat.rounds`). -/
def updLast (f : α → α) : List α → List α
  | [] => []
  | [a] => [f a]
  | a :: b :: l => a :: updLast f (b :: l)

/-- JS `Math.round(((o - c) / o) * 100)` on nonnegative inputs (round half up). -/
def jsRoundRatio (o c : Nat) : Nat :=
  (2 * ((o - c) * 100) + o) / (2 * o)

/-- CONST.CHAT_MESSAGE_STYLES.OTHER. -/
def STYLE_OTHER : Nat := 0
/-- CONST.CHAT_MESSAGE_STYLES.OOC. -/
def STYLE_OOC : Nat := 1
/-- CONST.CHAT_MESSAGE_STYLES.IC. -/
def STYLE_IC : Nat := 2
/-- CONST.CHAT_MESSAGE_STYLES.EMOTE. -/
def STYLE_EMOTE : Nat := 3

/-- One term of a Foundry `Roll` object: a die term (`term.faces` truthy), a
numeric term (`term.number !== undefined`), or an operator string. -/
inductive RollTerm where
  | die (faces : Nat) (number : Nat) (results : List Int) (flavor : String)
  | num (value : Int) (flavor : String)
  | op (symbol : String)
deriving Repr, DecidableEq

/-- A dice roll carried by a message (`msg.rolls[i]`). Absent `options.flavor`
and `options.type` are the empty string. -/
structure Roll where
  formula : String
  total : Int
  terms : List RollTerm
  optionsFlavor : String
  optionsType : String
deriving Repr, DecidableEq

/-- Message speaker; absent alias or actor id is the empty string (JS truthiness).
The JS field `speaker.alias` is spelled `aliasName` because `alias` is reserved in Lean. -/
structure Speaker where
  aliasName : String
  actor : String
deriving Repr, DecidableEq

/-- The message flags consulted by the source (`flags.core.initiativeRoll` and
the `flags.pf2e` family); absent string fields are the empty string. -/
structure MsgFlags where
  initiativeRoll : Bool
  pf2eContextType : String
  pf2eContextOutcome : String
  pf2eHeroPoints : Bool
  pf2eOriginType : String
  pf2eOriginItemLevel : Option Nat
deriving Repr, DecidableEq

/-- One chat message (event record). `isRollProp` is the `msg.isRoll` property;
absent flavor is the empty string. -/
structure Msg where
  id : Nat
  timestamp : Int
  content : String
  flavor : String
  style : Nat
  isRollProp : Bool
  rolls : List Roll
  whisper : List String
  speaker : Speaker
  flags : MsgFlags
deriving Repr, DecidableEq

/-- Actor registry entry: name and `hasPlayerOwner`. -/
structure ActorInfo where
  name : String
  hasPlayerOwner : Bool
deriving Repr, DecidableEq

/-- Explicit model of the global game state read by the pipeline. -/
structure GameCtx where
  /-- `game.combat?.active || game.combats?.some((c) => c.active)` -/
  activeCombat : Bool
  /-- actors, looked up by `game.actors.getName` / `game.actors.get` -/
  actors : List (String × ActorInfo)
  /-- `game.scenes?.current?.name`; empty string when absent -/
  sceneName : String
deriving Repr, DecidableEq

/-- `game.actors.getName(n)`. -/
def GameCtx.getActorByName (ctx : GameCtx) (n : String) : Option ActorInfo :=
  (ctx.actors.find? (fun p => p.2.name == n)).map (·.2)

/-- `game.actors.get(id)`. -/
def GameCtx.getActorById (ctx : GameCtx) (i : String) : Option ActorInfo :=
  (ctx.actors.find? (fun p => p.1 == i)).map (·.2)

/-- Case-insensitive version of `beginsWith`; the pattern is given lower-case. -/
def beginsWithCI : List Char → List Char → Bool
  | [], _ => true
  | _ :: _, [] => false
  | p :: ps, h :: hs => (p == h.toLower) && beginsWithCI ps hs

/-- Matches a literal pattern case-insensitively at the head and returns the rest. -/
def matchLitCI (pat : String) (cs : List Char) : Option (List Char) :=
  if beginsWithCI (chars (strToLower pat)) cs then some (cs.drop (chars pat).length) else none

/-- First alternative that matches case-insensitively at the head (JS alternation order). -/
def matchAltsCI (pats : List String) (cs : List Char) : Option (List Char) :=
  match pats with
  | [] => none
  | p :: ps =>
    match matchLitCI p cs with
    | some rest => some rest
    | none => matchAltsCI ps cs

namespace MessageParser

/-- MessageParser.stripHTML: DOM tag removal. -/
def stripHTML (s : String) : String :=
  String.mk (stripTags false (chars s))

/-- Lower-case letters prefix (`[a-z]+`, case-sensitive) with the rest. -/
def takeLowerAlpha : List Char → List Char × List Char
  | [] => ([], [])
  | c :: cs =>
    if c.isLower then
      let p := takeLowerAlpha cs
      (c :: p.1, p.2)
    else ([], c :: cs)

/-- Matches `[A-Z][a-z]+` at the head and returns the matched word and the rest. -/
def matchCapWord (cs : List Char) : Option (List Char × List Char) :=
  match cs with
  | [] => none
  | c :: rest =>
    if c.isUpper then
      let p := takeLowerAlpha rest
      if p.1.isEmpty then none else some (c :: p.1, p.2)
    else none

/-- Greedy continuation `(?:\s+[A-Z][a-z]+)*` of the actor-name pattern. The fuel
argument starts at the input length; every step consumes at least one character,
so the fuel never runs out and the scan equals the unbounded one. -/
def capWordSeqExt : Nat → List Char → List Char
  | 0, _ => []
  | Nat.succ n, cs =>
    match matchSpaces1 cs with
    | none => []
    | some afterSp =>
      match matchCapWord afterSp with
      | none => []
      | some (w, rest) => (takeSpaces cs).1 ++ w ++ capWordSeqExt n rest

/-- Start-anchored actor-name pattern `/^([A-Z][a-z]+(?:\s+[A-Z][a-z]+)*)/`. -/
def capWordSeqAtStart (cs : List Char) : Option String :=
  match matchCapWord cs with
  | none => none
  | some (w, rest) => some (String.mk (w ++ capWordSeqExt rest.length rest))

/-- MessageParser.extractActorName: speaker alias, then actor lookup, then a
leading-capitalized-words match on the stripped content, else "Unknown". -/
def extractActorName (ctx : GameCtx) (m : Msg) : String :=
  if m.speaker.aliasName ≠ "" then m.speaker.aliasName
  else
    match (if m.speaker.actor ≠ "" then ctx.getActorById m.speaker.actor else none) with
    | some a => a.name
    | none =>
      match capWordSeqAtStart (chars (stripHTML m.content)) with
      | some s => s
      | none => "Unknown"

/-- Capture group `([A-Z][a-z]+(?:\s+[A-Z]?[a-z]*)?(?:\s+\d+)?)` of the
target-name patterns, under the `i` flag (so the classes mean: a letter, one or
more letters, optionally whitespace plus any letters, optionally whitespace plus
digits); greedy, nothing follows, so no backtracking arises. -/
def targetCapture (cs : List Char) : Option (List Char) :=
  match cs with
  | [] => none
  | c :: rest =>
    if c.isAlpha then
      let p := takeAlpha rest
      if p.1.isEmpty then none
      else
        let sp1 := takeSpaces p.2
        let seg2 : List Char × List Char :=
          if sp1.1.isEmpty then ([], p.2)
          else
            let a2 := takeAlpha sp1.2
            (sp1.1 ++ a2.1, a2.2)
        let sp2 := takeSpaces seg2.2
        let seg3 : List Char :=
          if sp2.1.isEmpty then []
          else
            let d := takeDigits sp2.2
            if d.1.isEmpty then [] else sp2.1 ++ d.1
        some (c :: p.1 ++ seg2.1 ++ seg3)
    else none

/-- Scan for `/(?:vs|versus|attacks?|hits?)\s+(target)/i`. Committing to the
first matching alternative is equivalent to JS backtracking here because a
longer alternative that matches leaves the same follow-up failure as a shorter
one (the dropped `s` would make the required `\s+` fail anyway). -/
def scanTargetP1 : List Char → Option (List Char)
  | [] => none
  | c :: rest =>
    (match matchAltsCI ["vs", "versus", "attacks", "attack", "hits", "hit"] (c :: rest) with
     | some afterTrig =>
       match matchSpaces1 afterTrig with
       | some afterSp => targetCapture afterSp
       | none => none
     | none => none).orElse
      (fun _ => scanTargetP1 rest)

/-- Scan for `/(?:to|against)\s+(target)/i`. -/
def scanTargetP2 : List Char → Option (List Char)
  | [] => none
  | c :: rest =>
    (match matchAltsCI ["to", "against"] (c :: rest) with
     | some afterTrig =>
       match matchSpaces1 afterTrig with
       | some afterSp => targetCapture afterSp
       | none => none
     | none => none).orElse
      (fun _ => scanTargetP2 rest)

/-- MessageParser.extractTargetName: "vs/attacks/hits Target" then
"to/against Target" patterns on the stripped content. -/
def extractTargetName (content : String) : Option String :=
  let stripped := stripHTML content
  match scanTargetP1 (chars stripped) with
  | some cap => some (strTrim (String.mk cap))
  | none =>
    match scanTargetP2 (chars stripped) with
    | some cap => some (strTrim (String.mk cap))
    | none => none

/-- MessageParser.isHit: tri-state hit/miss from content. -/
def isHit (content : String) : Option Bool :=
  let lower := strToLower content
  if strIncludes lower "hit!" || strIncludes lower " hits" then some true
  else if strIncludes lower "miss" || strIncludes lower "misses" then some false
  else none

/-- MessageParser.isCritical. -/
def isCritical (content : String) : Bool :=
  let lower := strToLower content
  strIncludes lower "critical hit" || strIncludes lower "crit!"

/-- MessageParser.isFumble. -/
def isFumble (content : String) : Bool :=
  let lower := strToLower content
  strIncludes lower "fumble" || strIncludes lower "critical miss" ||
    strIncludes lower "critical failure"

/-- Scan for `/(\d+)\s*(?:damage|dmg)/i` (input pre-lowercased). -/
def scanDamageP1 : List Char → Option Int
  | [] => none
  | c :: rest =>
    (match matchDigits1 (c :: rest) with
     | some (n, after) =>
       match matchAlts ["damage", "dmg"] (takeSpaces after).2 with
       | some _ => some (Int.ofNat n)
       | none => none
     | none => none).orElse
      (fun _ => scanDamageP1 rest)

/-- Scan for `/(?:takes|dealt)\s*(\d+)/i` (input pre-lowercased). -/
def scanDamageP2 : List Char → Option Int
  | [] => none
  | c :: rest =>
    (match matchAlts ["takes", "dealt"] (c :: rest) with
     | some after =>
       match matchDigits1 (takeSpaces after).2 with
       | some (n, _) => some (Int.ofNat n)
       | none => none
     | none => none).orElse
      (fun _ => scanDamageP2 rest)

/-- Scan for `/(\d+)\s*(?:hit points|hp)/i` (input pre-lowercased). -/
def scanDamageP3 : List Char → Option Int
  | [] => none
  | c :: rest =>
    (match matchDigits1 (c :: rest) with
     | some (n, after) =>
       match matchAlts ["hit points", "hp"] (takeSpaces after).2 with
       | some _ => some (Int.ofNat n)
       | none => none
     | none => none).orElse
      (fun _ => scanDamageP3 rest)

/-- MessageParser.extractDamage: the three damage patterns in order. -/
def extractDamage (content : String) : Option Int :=
  let cs := chars (strToLower content)
  match scanDamageP1 cs with
  | some n => some n
  | none =>
    match scanDamageP2 cs with
    | some n => some n
    | none => scanDamageP3 cs

/-- MessageParser.isRoll: `msg.isRoll || (msg.rolls && msg.rolls.length > 0)`. -/
def isRoll (m : Msg) : Bool :=
  m.isRollProp || !m.rolls.isEmpty

/-- Scan for `/=\s*(\d+)/`. -/
def scanEqTotal : List Char → Option Int
  | [] => none
  | c :: rest =>
    (if c == '=' then
      match matchDigits1 (takeSpaces rest).2 with
      | some (n, _) => some (Int.ofNat n)
      | none => none
     else none).orElse
      (fun _ => scanEqTotal rest)

/-- MessageParser.getRollTotal. -/
def getRollTotal (m : Msg) : Option Int :=
  if !isRoll m then none
  else
    match m.rolls with
    | r :: _ => some r.total
    | [] => scanEqTotal (chars m.content)

/-- Die-term breakdown inside a roll analysis. -/
structure DieInfo where
  faces : Nat
  number : Nat
  results : List Int
  label : Option String
deriving Repr, DecidableEq

/-- Numeric-modifier breakdown inside a roll analysis. -/
structure ModInfo where
  value : Int
  label : Option String
deriving Repr, DecidableEq

/-- MessageParser.analyzeRoll result. -/
structure RollAnalysis where
  actor : String
  rollType : String
  total : Option Int
  formula : Option String
  dice : List DieInfo
  modifiers : List ModInfo
  target : Option String
  isSuccess : Option Bool
  isCritical : Bool
  isFumble : Bool
  degree : Option String
deriving Repr, DecidableEq

/-- Scan for `/<strong>([A-Za-z\s]+)<\/strong>/i`; returns the raw capture. -/
def scanStrongTag : List Char → Option String
  | [] => none
  | c :: rest =>
    (match matchLitCI "<strong>" (c :: rest) with
     | some after =>
       let p := takeAlphaSpace after
       if p.1.isEmpty then none
       else
         match matchLitCI "</strong>" p.2 with
         | some _ => some (String.mk p.1)
         | none => none
     | none => none).orElse
      (fun _ => scanStrongTag rest)

/-- Scan for `/\(([A-Za-z]+)\s+Check\)/i`; returns the captured skill name. -/
def scanParenCheck : List Char → Option String
  | [] => none
  | c :: rest =>
    (if c == '(' then
      let p := takeAlpha rest
      if p.1.isEmpty then none
      else
        match matchSpaces1 p.2 with
        | some afterSp =>
          match matchLitCI "check" afterSp with
          | some afterCheck =>
            match afterCheck with
            | ')' :: _ => some (String.mk p.1)
            | _ => none
          | none => none
        | none => none
     else none).orElse
      (fun _ => scanParenCheck rest)

/-- Scan for `/([A-Za-z]+)\s*[◆●○]?\s*\(([A-Za-z]+)\s+Check\)/i`; returns the
captured action and skill names. -/
def scanActionCheck : List Char → Option (String × String)
  | [] => none
  | c :: rest =>
    (if c.isAlpha then
      let p := takeAlpha rest
      let afterAction := (takeSpaces p.2).2
      let afterGlyph :=
        match afterAction with
        | g :: gs => if g == '◆' || g == '●' || g == '○' then gs else afterAction
        | [] => afterAction
      let afterSp2 := (takeSpaces afterGlyph).2
      match afterSp2 with
      | '(' :: inner =>
        let q := takeAlpha inner
        if q.1.isEmpty then none
        else
          match matchSpaces1 q.2 with
          | some afterSp3 =>
            match matchLitCI "check" afterSp3 with
            | some afterCheck =>
              match afterCheck with
              | ')' :: _ => some (String.mk (c :: p.1), String.mk q.1)
              | _ => none
            | none => none
          | none => none
      | _ => none
     else none).orElse
      (fun _ => scanActionCheck rest)

/-- `s.charAt(0).toUpperCase() + s.slice(1)`. -/
def capitalizeFirst (s : String) : String :=
  match chars s with
  | [] => s
  | c :: r => String.mk (c.toUpper :: r)

/-- The skill-name dictionary of MessageParser.identifyRollType. -/
def skillsList : List String :=
  ["acrobatics", "arcana", "athletics", "crafting", "deception", "diplomacy",
   "intimidation", "medicine", "nature", "occultism", "performance", "religion",
   "society", "survival", "thievery", "animal handling", "history", "insight",
   "investigation", "persuasion", "sleight of hand"]

/-- The ability-name dictionary of MessageParser.identifyRollType. -/
def abilitiesList : List String :=
  ["strength", "dexterity", "constitution", "intelligence", "wisdom", "charisma"]

/-- MessageParser.identifyRollType: PF2e context flags first, then initiative,
skills, skill-check patterns, perception/stealth, saves, damage, attack,
abilities, with "Roll" as the fallback. -/
def identifyRollType (m : Msg) : String :=
  let content := strToLower m.content
  let flavor := strToLower m.flavor
  let combined := content ++ " " ++ flavor
  if m.flags.pf2eContextType == "skill-check" then
    let searchText := if m.flavor ≠ "" then m.flavor else m.content
    let actionMatch := scanStrongTag (chars searchText)
    let skillMatch := scanParenCheck (chars (stripHTML searchText))
    match actionMatch, skillMatch with
    | some action, some skill => strTrim action ++ " (" ++ skill ++ ")"
    | none, some skill => skill ++ " Check"
    | _, none => "Skill Check"
  else if m.flags.pf2eContextType == "attack-roll" then "Attack"
  else if m.flags.pf2eContextType == "spell-attack-roll" then "Spell Attack"
  else if m.flags.pf2eContextType == "damage-roll" then "Damage"
  else if m.flags.pf2eContextType == "saving-throw" then "Saving Throw"
  else if strIncludes combined "initiative" then "Initiative"
  else
    match skillsList.find? (fun sk => strIncludes combined sk) with
    | some sk => capitalizeFirst sk
    | none =>
      if strIncludes combined "skill check" || strIncludes combined "check)" then
        match scanActionCheck (chars m.content) with
        | some (action, skill) => action ++ " (" ++ skill ++ ")"
        | none =>
          match scanParenCheck (chars m.content) with
          | some skill => skill ++ " Check"
          | none => "Skill Check"
      else if strIncludes combined "perception" then "Perception"
      else if strIncludes combined "stealth" then "Stealth"
      else if strIncludes combined "save" || strIncludes combined "saving throw" then
        "Saving Throw"
      else if strIncludes combined "damage" then "Damage"
      else if strIncludes combined "attack" || strIncludes combined "strike" then "Attack"
      else
        match abilitiesList.find? (fun ab => strIncludes combined ab) with
        | some ab => capitalizeFirst ab ++ " Check"
        | none => "Roll"

/-- MessageParser.determineSuccess. -/
def determineSuccess (m : Msg) (analysis : RollAnalysis) : Option Bool :=
  let content := strToLower m.content
  if strIncludes content "success" || strIncludes content "hit" then some true
  else if strIncludes content "failure" || strIncludes content "miss" then some false
  else if analysis.rollType == "Attack" then isHit m.content
  else none

/-- MessageParser.extractDegreeOfSuccess. -/
def extractDegreeOfSuccess (content : String) : Option String :=
  let lower := strToLower content
  if strIncludes lower "critical success" then some "Critical Success"
  else if strIncludes lower "critical failure" then some "Critical Failure"
  else if strIncludes lower "success" then some "Success"
  else if strIncludes lower "failure" then some "Failure"
  else none

/-- MessageParser.inferModifierLabel: keyword sniffing on the roll formula
(case-sensitive, as in the source). -/
def inferModifierLabel (roll : Roll) : Option String :=
  let formula := roll.formula
  if strIncludes formula "proficiency" then some "Proficiency"
  else if strIncludes formula "ability" then some "Ability"
  else if strIncludes formula "item" then some "Item"
  else if strIncludes formula "circumstance" then some "Circumstance"
  else if strIncludes formula "status" then some "Status"
  else none

/-- Scan for the global pattern `/([A-Za-z\s]+)\s*([+-]\d+)/g`, returning the
raw first captures in order. The fuel argument starts at the input length;
every step consumes at least one character, so the scan equals the unbounded
one. -/
def modLabelScan : Nat → List Char → List String
  | 0, _ => []
  | Nat.succ n, cs =>
    match cs with
    | [] => []
    | _ :: rest =>
      let p := takeAlphaSpace cs
      if p.1.isEmpty then modLabelScan n rest
      else
        match p.2 with
        | s :: afterSign =>
          if s == '+' || s == '-' then
            let d := takeDigits afterSign
            if d.1.isEmpty then modLabelScan n rest
            else String.mk p.1 :: modLabelScan n d.2
          else modLabelScan n rest
        | [] => modLabelScan n rest

/-- MessageParser.enrichModifierLabels: zip the scanned flavor labels
positionally onto modifiers that lack a label. -/
def enrichModifierLabels (mods : List ModInfo) (flavor : String) : List ModInfo :=
  let labels := modLabelScan (chars flavor).length (chars flavor)
  mods.mapIdx (fun i mo =>
    match mo.label with
    | none =>
      match labels.get? i with
      | some l => { mo with label := some (strTrim l) }
      | none => mo
    | some _ => mo)

/-- Dice extracted from the first roll term list (`term.faces` truthy branch). -/
def termDice (terms : List RollTerm) : List DieInfo :=
  terms.filterMap (fun t =>
    match t with
    | .die f n rs fl =>
      some { faces := f, number := n, results := rs,
             label := if fl == "" then none else some fl }
    | _ => none)

/-- Modifiers extracted from the roll term list (`term.number !== undefined`
branch), with `inferModifierLabel` as the label fallback. -/
def termModifiers (roll : Roll) : List ModInfo :=
  roll.terms.filterMap (fun t =>
    match t with
    | .num v fl =>
      some { value := v,
             label := if fl == "" then inferModifierLabel roll else some fl }
    | _ => none)

/-- MessageParser.analyzeRoll. -/
def analyzeRoll (ctx : GameCtx) (m : Msg) : Option RollAnalysis :=
  if !isRoll m then none
  else
    let base : RollAnalysis := {
      actor := extractActorName ctx m
      rollType := identifyRollType m
      total := getRollTotal m
      formula := none
      dice := []
      modifiers := []
      target := extractTargetName m.content
      isSuccess := none
      isCritical := isCritical m.content
      isFumble := isFumble m.content
      degree := none }
    let withRoll :=
      match m.rolls with
      | [] => base
      | r :: _ =>
        let mods0 := termModifiers r
        let mods :=
          if r.optionsFlavor ≠ "" then enrichModifierLabels mods0 r.optionsFlavor
          else mods0
        { base with formula := some r.formula, dice := termDice r.terms, modifiers := mods }
    let withSuccess := { withRoll with isSuccess := determineSuccess m withRoll }
    some { withSuccess with degree := extractDegreeOfSuccess m.content }

end MessageParser

/-- JS `s || d` for an optional string (null, undefined and "" are falsy). -/
def jsOrStr (o : Option String) (d : String) : String :=
  match o with
  | some s => if s == "" then d else s
  | none => d

namespace CombatDetector

/-- One action recorded inside a combat round. Fields that a given JS push
leaves undefined are `none` (tri-states) or `false` (the truthiness-tested
`critical`/`fumble` flags). -/
structure CombatAction where
  actor : String
  action : String
  target : Option String
  roll : Option Int
  damage : Option Int
  hit : Option Bool
  success : Option Bool
  critical : Bool
  fumble : Bool
  messageId : Nat
deriving Repr, DecidableEq

/-- One combat round. -/
structure Round where
  number : Nat
  actions : List CombatAction
deriving Repr, DecidableEq

/-- Combat summary statistics. -/
structure CombatStats where
  totalDamageDealt : Int
  totalDamageTaken : Int
  criticalSuccesses : Nat
deriving Repr, DecidableEq

/-- Participants split computed at finalization. -/
structure Participants where
  allies : List String
  enemies : List String
deriving Repr, DecidableEq

/-- Finalized combat summary. The JS `currentRound` reference always points at
the last element of `rounds`, so it is not a separate field here. -/
structure CombatSummary where
  typ : String
  title : String
  location : String
  startTime : Int
  endTime : Option Int
  duration : String
  participants : Participants
  rounds : List Round
  keyMoments : List String
  outcome : String
  casualties : List String
  stats : CombatStats
  originalMessageIds : List Nat
  originalMessageCount : Nat
  compressedSize : Nat
deriving Repr, DecidableEq

/-- The mutable `currentCombat` object during detection. `endTime` stays `none`
unless a branch assigns it (the JS field is undefined until then). -/
structure OpenCombat where
  startTime : Int
  startMessageId : Nat
  participants : List String
  rounds : List Round
  casualties : List String
  endTime : Option Int
  endMessageId : Option Nat
deriving Repr, DecidableEq

/-- The object built at a combat-start signal. -/
def newOpenCombat (m : Msg) : OpenCombat :=
  { startTime := m.timestamp, startMessageId := m.id, participants := [],
    rounds := [], casualties := [], endTime := none, endMessageId := none }

/-- `this.combatTimeout = 5 * 60 * 1000`. -/
def combatTimeout : Int := 5 * 60 * 1000

/-- CombatDetector.isCombatStart. -/
def isCombatStart (m : Msg) : Bool :=
  let content := strToLower m.content
  strIncludes content "combat has started" ||
    strIncludes content "combat started" ||
    strIncludes content "roll initiative" ||
    strIncludes content "roll for initiative" ||
    m.flags.initiativeRoll ||
    strIncludes content "enters combat"

/-- CombatDetector.isCombatMessage: combat keywords, else a combat-typed roll. -/
def isCombatMessage (ctx : GameCtx) (m : Msg) : Bool :=
  let content := strToLower m.content
  if strIncludes content "attack" || strIncludes content "damage" ||
      strIncludes content "hit" || strIncludes content "miss" ||
      strIncludes content "saving throw" || strIncludes content "save" ||
      strIncludes content "cast" || strIncludes content "uses" ||
      strIncludes content "action" then
    true
  else if MessageParser.isRoll m then
    match MessageParser.analyzeRoll ctx m with
    | some ra => ["Attack", "Damage", "Saving Throw", "Initiative"].contains ra.rollType
    | none => false
  else false

/-- CombatDetector.isCombatEnd. -/
def isCombatEnd (m : Msg) : Bool :=
  let content := strToLower m.content
  strIncludes content "combat has ended" ||
    strIncludes content "combat ended" ||
    strIncludes content "all enemies defeated" ||
    strIncludes content "combat is over" ||
    strIncludes content "encounter ended"

/-- Actions of the current (= last) round. -/
def currentActions (c : OpenCombat) : List CombatAction :=
  match c.rounds.getLast? with
  | some r => r.actions
  | none => []

/-- Number of the current (= last) round. -/
def currentRoundNumber (c : OpenCombat) : Nat :=
  match c.rounds.getLast? with
  | some r => r.number
  | none => 0

/-- Push an action onto the current round. -/
def pushAction (c : OpenCombat) (a : CombatAction) : OpenCombat :=
  { c with rounds := updLast (fun r => { r with actions := r.actions ++ [a] }) c.rounds }

/-- Apply `f` to the last action of the current round (JS mutation of
`actions[actions.length - 1]`). -/
def updateLastAction (c : OpenCombat) (f : CombatAction → CombatAction) : OpenCombat :=
  { c with rounds := updLast (fun r => { r with actions := updLast f r.actions }) c.rounds }

/-- Scan for `/round\s+(\d+)/i` (input pre-lowercased). -/
def scanRoundNum : List Char → Option Nat
  | [] => none
  | c :: rest =>
    (match matchLit "round" (c :: rest) with
     | some after =>
       match matchSpaces1 after with
       | some afterSp =>
         match matchDigits1 afterSp with
         | some (n, _) => some n
         | none => none
       | none => none
     | none => none).orElse
      (fun _ => scanRoundNum rest)

/-- CombatDetector.extractCombatInfo, in source order: participant, round
initialization, roll or keyword action handling, death check, round-number
check. -/
def extractCombatInfo (ctx : GameCtx) (m : Msg) (combat : OpenCombat) : OpenCombat :=
  let content := m.content
  let contentLower := strToLower content
  let actor := MessageParser.extractActorName ctx m
  let c1 :=
    if actor ≠ "" && !combat.participants.contains actor then
      { combat with participants := combat.participants ++ [actor] }
    else combat
  let c2 := if c1.rounds.isEmpty then { c1 with rounds := [⟨1, []⟩] } else c1
  let c3 :=
    if MessageParser.isRoll m then
      match MessageParser.analyzeRoll ctx m with
      | some ra =>
        if ra.rollType == "Attack" then
          pushAction c2 {
            actor := if ra.actor ≠ "" then ra.actor else actor, action := "attack",
            target := ra.target, roll := ra.total, damage := none,
            hit := ra.isSuccess, success := none,
            critical := ra.isCritical, fumble := ra.isFumble, messageId := m.id }
        else if ra.rollType == "Damage" then
          let damage := ra.total
          let target := ra.target
          if !(currentActions c2).isEmpty then
            updateLastAction c2 (fun last =>
              if last.action == "attack" && jsTruthy last.hit then
                { last with
                  damage := damage
                  target := if target.isSome && last.target.isNone then target
                            else last.target }
              else last)
          else
            pushAction c2 {
              actor := if ra.actor ≠ "" then ra.actor else actor, action := "damage",
              target := target, roll := none, damage := damage,
              hit := none, success := none,
              critical := false, fumble := false, messageId := m.id }
        else if ra.rollType == "Saving Throw" then
          pushAction c2 {
            actor := if ra.actor ≠ "" then ra.actor else actor, action := "save",
            target := none, roll := ra.total, damage := none,
            hit := none, success := ra.isSuccess,
            critical := ra.isCritical, fumble := ra.isFumble, messageId := m.id }
        else c2
      | none => c2
    else if strIncludes contentLower "attack" then
      pushAction c2 {
        actor := actor, action := "attack",
        target := MessageParser.extractTargetName content,
        roll := MessageParser.getRollTotal m, damage := none,
        hit := MessageParser.isHit content, success := none,
        critical := MessageParser.isCritical content,
        fumble := MessageParser.isFumble content, messageId := m.id }
    else if strIncludes contentLower "damage" then
      let damage := MessageParser.extractDamage content
      let target := MessageParser.extractTargetName content
      if !(currentActions c2).isEmpty then
        updateLastAction c2 (fun last =>
          if last.action == "attack" && jsTruthy last.hit then
            { last with
              damage := damage
              target := if target.isSome && last.target.isNone then target
                        else last.target }
          else last)
      else c2
    else c2
  let c4 :=
    if strIncludes contentLower "dies" || strIncludes contentLower "unconscious" ||
        strIncludes contentLower "drops to 0" || strIncludes contentLower "reduced to 0" then
      let victim : Option String :=
        if actor ≠ "" then some actor else MessageParser.extractTargetName content
      match victim with
      | some v =>
        if c3.casualties.contains v then c3
        else { c3 with casualties := c3.casualties ++ [v] }
      | none => c3
    else c3
  if strIncludes contentLower "round" || strIncludes contentLower "turn" then
    match scanRoundNum (chars contentLower) with
    | some n =>
      if n > currentRoundNumber c4 then { c4 with rounds := c4.rounds ++ [⟨n, []⟩] }
      else c4
    | none => c4
  else c4

/-- CombatDetector.getPlayerCharacters. -/
def getPlayerCharacters (ctx : GameCtx) (participants : List String) : List String :=
  participants.filter (fun n =>
    match ctx.getActorByName n with
    | some a => a.hasPlayerOwner
    | none => false)

/-- CombatDetector.getEnemies. The JS filter is
`!actor?.hasPlayerOwner && actor !== null`; `getName` yields `undefined` (never
`null`) for a missing actor, so unresolved names count as enemies. -/
def getEnemies (ctx : GameCtx) (participants : List String) : List String :=
  participants.filter (fun n =>
    match ctx.getActorByName n with
    | some a => !a.hasPlayerOwner
    | none => true)

/-- Digit removal, `name.replace(/\d+/g, "")`. -/
def stripDigitChars (s : String) : String :=
  String.mk ((chars s).filter (fun c => !c.isDigit))

/-- CombatDetector.generateCombatTitle. -/
def generateCombatTitle (ctx : GameCtx) (combat : OpenCombat) (messages : List Msg) : String :=
  match messages.find? (fun m =>
      strIncludes (strToLower m.content) "ambush" || strIncludes (strToLower m.content) "boss") with
  | some m => if strIncludes (strToLower m.content) "ambush" then "Ambush" else "Boss Fight"
  | none =>
    match getEnemies ctx combat.participants with
    | e :: _ => strTrim (stripDigitChars e) ++ " Encounter"
    | [] => "Combat Encounter"

/-- Whether a casualty name resolves to a player-owned actor
(`game.actors.getName(c)?.hasPlayerOwner`). -/
def casualtyIsPC (ctx : GameCtx) (n : String) : Bool :=
  match ctx.getActorByName n with
  | some a => a.hasPlayerOwner
  | none => false

/-- CombatDetector.finalizeCombat. -/
def finalizeCombat (ctx : GameCtx) (combat : OpenCombat) (messages : List Msg) : CombatSummary :=
  let outcome :=
    if combat.casualties.length > 0 then
      if combat.casualties.any (casualtyIsPC ctx) then "Defeat" else "Victory"
    else "Unknown"
  let scan :=
    (combat.rounds.flatMap (fun r => r.actions)).foldl
      (fun (acc : List String × Int × Int × Nat) action =>
        let km1 :=
          if action.critical then
            acc.1 ++ [if jsTruthyNum action.damage then
                        action.actor ++ " scored a critical hit on " ++
                          jsOrStr action.target "target" ++ " (" ++
                          toString (action.damage.getD 0) ++ " damage)"
                      else action.actor ++ " scored a critical hit"]
          else acc.1
        let km2 := if action.fumble then km1 ++ [action.actor ++ " critically failed"] else km1
        let crits := if action.critical then acc.2.2.2 + 1 else acc.2.2.2
        let dealt :=
          if jsTruthyNum action.damage && casualtyIsPC ctx action.actor then
            acc.2.1 + action.damage.getD 0
          else acc.2.1
        let taken :=
          if jsTruthyNum action.damage && !casualtyIsPC ctx action.actor then
            acc.2.2.1 + action.damage.getD 0
          else acc.2.2.1
        (km2, dealt, taken, crits))
      ([], 0, 0, 0)
  let keyMoments := scan.1 ++ combat.casualties.map (fun c => c ++ " was defeated")
  { typ := "combat"
    title := generateCombatTitle ctx combat messages
    location := if ctx.sceneName ≠ "" then ctx.sceneName else "Unknown Location"
    startTime := combat.startTime
    endTime := combat.endTime
    duration := toString combat.rounds.length ++ " rounds"
    participants := { allies := getPlayerCharacters ctx combat.participants,
                      enemies := getEnemies ctx combat.participants }
    rounds := combat.rounds
    keyMoments := keyMoments
    outcome := outcome
    casualties := combat.casualties
    stats := { totalDamageDealt := scan.2.1, totalDamageTaken := scan.2.2.1,
               criticalSuccesses := scan.2.2.2 }
    originalMessageIds := messages.map (·.id)
    originalMessageCount := messages.length
    compressedSize := 1 }

/-- The loop state of CombatDetector.detect: finalized combats, the open
combat, and the `combatMessages` list. -/
structure DetectState where
  combats : List CombatSummary
  current : Option OpenCombat
  msgs : List Msg
deriving Repr, DecidableEq

/-- One iteration of the CombatDetector.detect loop, with its branch order:
start signal, absorb (isCombatMessage), end signal, inactivity timeout. -/
def detectStep (ctx : GameCtx) (s : DetectState) (m : Msg) : DetectState :=
  if isCombatStart m then
    { combats := s.combats ++
        (match s.current with
         | some c => [finalizeCombat ctx c s.msgs]
         | none => [])
      current := some (newOpenCombat m)
      msgs := [m] }
  else
    match s.current with
    | some c =>
      if isCombatMessage ctx m then
        { s with current := some (extractCombatInfo ctx m c), msgs := s.msgs ++ [m] }
      else if isCombatEnd m then
        { combats := s.combats ++
            [finalizeCombat ctx
              { c with endTime := some m.timestamp, endMessageId := some m.id }
              (s.msgs ++ [m])]
          current := none
          msgs := [] }
      else
        match s.msgs.getLast? with
        | some lastM =>
          if m.timestamp - lastM.timestamp > combatTimeout then
            { combats := s.combats ++
                [finalizeCombat ctx { c with endTime := some lastM.timestamp } s.msgs]
              current := none
              msgs := [] }
          else s
        | none => s
    | none => s

/-- CombatDetector.detect: fold the step over the message stream, then
finalize a remaining open combat at the last absorbed timestamp. -/
def detect (ctx : GameCtx) (messages : List Msg) : List CombatSummary :=
  let final := messages.foldl (detectStep ctx) { combats := [], current := none, msgs := [] }
  final.combats ++
    (match final.current, final.msgs.getLast? with
     | some c, some lastM =>
       [finalizeCombat ctx { c with endTime := some lastM.timestamp } final.msgs]
     | _, _ => [])

end CombatDetector

namespace ChatTrimmer

/-- ChatTrimmer.isCombatMessage: flag signals first (truthy regardless of
active combat), then the active-combat gate, then roll/content checks. -/
def isCombatMessage (ctx : GameCtx) (m : Msg) : Bool :=
  if m.flags.initiativeRoll then true
  else if m.flags.pf2eContextType == "attack-roll" ||
      m.flags.pf2eContextType == "spell-attack-roll" ||
      m.flags.pf2eContextType == "saving-throw" ||
      m.flags.pf2eContextType == "damage-roll" then true
  else if !ctx.activeCombat then false
  else if MessageParser.isRoll m then true
  else
    let content := strToLower m.content
    strIncludes content "attack" || strIncludes content "damage" ||
      strIncludes content "saving throw" || strIncludes content "combat" ||
      strIncludes content "initiative"

/-- ChatTrimmer.isDialogueMessage. -/
def isDialogueMessage (m : Msg) : Bool :=
  m.style == STYLE_IC || m.style == STYLE_EMOTE

/-- ChatTrimmer.isRollMessage. -/
def isRollMessage (m : Msg) : Bool :=
  MessageParser.isRoll m

/-- ChatTrimmer.isItemMessage. -/
def isItemMessage (m : Msg) : Bool :=
  let content := strToLower m.content
  strIncludes content "receives" || strIncludes content "gives" ||
    strIncludes content "takes" || strIncludes content "gold" ||
    strIncludes content "item"

/-- ChatTrimmer.isSystemMessage. -/
def isSystemMessage (m : Msg) : Bool :=
  m.style == STYLE_OTHER

/-- ChatTrimmer.isOOCMessage. -/
def isOOCMessage (m : Msg) : Bool :=
  m.style == STYLE_OOC

/-- ChatTrimmer.isCriticalMessage: fixed phrases on the lower-cased raw
content (`msg.content.toLowerCase()`, markup kept). -/
def isCriticalMessage (m : Msg) : Bool :=
  let content := strToLower m.content
  strIncludes content "critical hit" ||
    strIncludes content "critical miss" ||
    strIncludes content "death save" ||
    strIncludes content "level up" ||
    strIncludes content "xp" ||
    strIncludes content "dies" ||
    strIncludes content "unconscious"

/-- Scan for `/\b(\d+)(?:st|nd|rd|th)[-\s]?level spell/i` (input pre-lowercased);
the optional character argument is the previous character, for the `\b` test. -/
def scanSpellLevel : Option Char → List Char → Option Nat
  | _, [] => none
  | prev, c :: rest =>
    (if c.isDigit && (match prev with
                      | some p => !(p.isAlpha || p.isDigit || p == '_')
                      | none => true) then
      match matchDigits1 (c :: rest) with
      | some (n, after) =>
        match matchAlts ["st", "nd", "rd", "th"] after with
        | some after2 =>
          let after3 :=
            match after2 with
            | x :: xs => if x == '-' || x.isWhitespace then xs else after2
            | [] => after2
          match matchLit "level spell" after3 with
          | some _ => some n
          | none => none
        | none => none
      | none => none
     else none).orElse
      (fun _ => scanSpellLevel (some c) rest)

/-- Scan for `/(\d+)\s*(?:gold|gp|pp|platinum)/i` (input pre-lowercased). -/
def scanGold : List Char → Option Nat
  | [] => none
  | c :: rest =>
    (match matchDigits1 (c :: rest) with
     | some (n, after) =>
       match matchAlts ["gold", "gp", "pp", "platinum"] (takeSpaces after).2 with
       | some _ => some n
       | none => none
     | none => none).orElse
      (fun _ => scanGold rest)

/-- ChatTrimmer.isKeyEvent: the rule cascade over content + flavor. -/
def isKeyEvent (m : Msg) : Bool :=
  let content := strToLower m.content
  let flavor := strToLower m.flavor
  let combined := content ++ " " ++ flavor
  if m.flags.pf2eContextOutcome == "criticalSuccess" ||
      m.flags.pf2eContextOutcome == "criticalFailure" then true
  else if strIncludes combined "critical success" ||
      strIncludes combined "critical hit" ||
      strIncludes combined "critical failure" ||
      strIncludes combined "critical miss" ||
      strIncludes combined "fumble" ||
      strIncludes combined "class=\"criticalsuccess\"" ||
      strIncludes combined "class=\"criticalfailure\"" then true
  else if strIncludes combined "dying" || strIncludes combined "death" ||
      strIncludes combined "dies" || strIncludes combined "dead" ||
      strIncludes combined "unconscious" || strIncludes combined "knocked out" ||
      strIncludes combined "wounded" then true
  else if strIncludes combined "death save" || strIncludes combined "recovery check" ||
      strIncludes combined "stabilize" then true
  else if strIncludes combined "hero point" || strIncludes combined "hero points" ||
      m.flags.pf2eHeroPoints then true
  else if m.flags.pf2eOriginType == "spell" &&
      (match m.flags.pf2eOriginItemLevel with
       | some l => decide (l ≥ 4)
       | none => false) then true
  else if (match scanSpellLevel none (chars combined) with
           | some n => decide (n ≥ 4)
           | none => false) then true
  else if strIncludes combined "xp" || strIncludes combined "experience" ||
      strIncludes combined "level up" || strIncludes combined "gained a level" ||
      strIncludes combined "leveled up" then true
  else if (match scanGold (chars combined) with
           | some n => decide (n ≥ 100)
           | none => false) then true
  else if strIncludes combined "treasure" || strIncludes combined "loot" ||
      strIncludes combined "artifact" || strIncludes combined "relic" ||
      strIncludes combined "legendary" || strIncludes combined "unique item" then true
  else if strIncludes combined "persistent damage" ||
      strIncludes combined "persistent bleed" ||
      strIncludes combined "persistent fire" ||
      strIncludes combined "persistent acid" ||
      strIncludes combined "persistent poison" ||
      strIncludes combined "doomed" || strIncludes combined "drained" ||
      strIncludes combined "enfeebled" || strIncludes combined "clumsy" ||
      strIncludes combined "stupefied" || strIncludes combined "slowed" ||
      strIncludes combined "stunned" || strIncludes combined "paralyzed" ||
      strIncludes combined "petrified" || strIncludes combined "confused" then true
  else false

/-- The classification buckets built by ChatTrimmer.classifyMessages. -/
structure Classified where
  combat : List Msg
  dialogue : List Msg
  rolls : List Msg
  items : List Msg
  system : List Msg
  ooc : List Msg
  critical : List Msg
  all : List Msg
deriving Repr, DecidableEq

/-- ChatTrimmer.classifyMessages: the JS loop pushes each message into every
matching bucket (and always into `all`), which builds exactly these filters. -/
def classifyMessages (ctx : GameCtx) (messages : List Msg) : Classified :=
  { combat := messages.filter (fun m => isCombatMessage ctx m)
    dialogue := messages.filter isDialogueMessage
    rolls := messages.filter isRollMessage
    items := messages.filter isItemMessage
    system := messages.filter isSystemMessage
    ooc := messages.filter isOOCMessage
    critical := messages.filter isCriticalMessage
    all := messages }

/-- ChatTrimmer.determineMessageCategories: the additive category list, in
push order. The JS `!categories.includes("combat")` guards are no-ops under
the else-if chain and are therefore not repeated here. -/
def determineMessageCategories (ctx : GameCtx) (m : Msg) : List String :=
  let c1 := if MessageParser.isRoll m then ["rolls"] else []
  let c2 :=
    if ctx.activeCombat then
      if m.flags.pf2eContextType == "attack-roll" ||
          m.flags.pf2eContextType == "spell-attack-roll" ||
          m.flags.pf2eContextType == "saving-throw" ||
          m.flags.pf2eContextType == "damage-roll" then ["combat"]
      else if m.flags.initiativeRoll then ["combat"]
      else if MessageParser.isRoll m then
        let contentLower := strToLower m.content
        if strIncludes contentLower "attack" || strIncludes contentLower "damage" ||
            strIncludes contentLower "saving throw" ||
            strIncludes contentLower "combat" then ["combat"]
        else []
      else []
    else []
  let c3 := if !m.whisper.isEmpty then ["whispers"] else []
  let c4 := if m.style == STYLE_IC then ["speech"] else []
  let c5 := if m.style == STYLE_EMOTE then ["emotes"] else []
  let content := strToLower (MessageParser.stripHTML m.content)
  let c6 := if strIncludes content "heal" then ["healing"] else []
  let c7 :=
    if strIncludes content "item" || strIncludes content "gold" ||
        strIncludes content "loot" then ["items"]
    else []
  let c8 :=
    if strIncludes content "xp" || strIncludes content "level" ||
        strIncludes content "important" then ["important"]
    else []
  let cats := c1 ++ c2 ++ c3 ++ c4 ++ c5 ++ c6 ++ c7 ++ c8
  if cats.isEmpty then ["all"] else cats

/-- ChatTrimmer.determineMessageCategory: the primary category
(`categories[0]`; the list is never empty thanks to the `all` fallback). -/
def determineMessageCategory (ctx : GameCtx) (m : Msg) : String :=
  (determineMessageCategories ctx m).headD "all"

/-- One archive entry. Entry ids (`foundry.utils.randomID()`) and the purely
presentational fields (icon, displayText, displaySummary, sanitized content,
searchKeywords, rollData) are omitted; no claim concerns them. -/
structure Entry where
  type : String
  category : String
  categories : Option (List String)
  timestamp : Int
  speaker : String
  summary : Option CombatDetector.CombatSummary
  originalMessage : Option Msg
  originalMessageIds : List Nat
  isKeyEvent : Bool
deriving Repr, DecidableEq

/-- The combat-summary entry pushed for each detected combat. -/
def combatEntry (combat : CombatDetector.CombatSummary) : Entry :=
  { type := "combat", category := "combat", categories := none,
    timestamp := combat.startTime,
    speaker := "Combat", summary := some combat, originalMessage := none,
    originalMessageIds := combat.originalMessageIds, isKeyEvent := true }

/-- The individual entry pushed for an unconsumed critical message (the JS
critical-message loop sets `category` only). -/
def criticalEntry (ctx : GameCtx) (m : Msg) : Entry :=
  { type := "individual", category := determineMessageCategory ctx m,
    categories := none, timestamp := m.timestamp,
    speaker := if MessageParser.extractActorName ctx m == "" then "Unknown"
               else MessageParser.extractActorName ctx m,
    summary := none, originalMessage := some m,
    originalMessageIds := [m.id], isKeyEvent := isKeyEvent m }

/-- The individual entry pushed for a remaining unprocessed message (sets both
`category` and `categories`). -/
def individualEntry (ctx : GameCtx) (m : Msg) : Entry :=
  { type := "individual",
    category := (determineMessageCategories ctx m).headD "all",
    categories := some (determineMessageCategories ctx m),
    timestamp := m.timestamp,
    speaker := if MessageParser.extractActorName ctx m == "" then "Unknown"
               else MessageParser.extractActorName ctx m,
    summary := none, originalMessage := some m,
    originalMessageIds := [m.id], isKeyEvent := isKeyEvent m }

/-- ChatTrimmer.createArchiveEntries: combat summaries (marking their
originalMessageIds processed), then unconsumed critical messages, then all
remaining messages, finally sorted by timestamp (stable, as JS sort). -/
def createArchiveEntries (ctx : GameCtx)
    (detected : List CombatDetector.CombatSummary) (classified : Classified) :
    List Entry :=
  let combatEntries := detected.map combatEntry
  let processed0 := detected.flatMap (fun c => c.originalMessageIds)
  let critStep :=
    classified.critical.foldl
      (fun (acc : List Entry × List Nat) m =>
        if m.id ∈ acc.2 then acc
        else (acc.1 ++ [criticalEntry ctx m], acc.2 ++ [m.id]))
      ([], processed0)
  let unprocessed := classified.all.filter (fun m => decide (m.id ∉ critStep.2))
  let entries := combatEntries ++ critStep.1 ++ unprocessed.map (individualEntry ctx)
  sortByKey (fun e => e.timestamp) entries

/-- The statistics object of ChatTrimmer.calculateStatistics. -/
structure TrimStats where
  totalCombats : Nat
  totalDialogues : Nat
  totalSkillChecks : Nat
  totalRolls : Nat
  criticalSuccesses : Nat
  criticalFails : Nat
  itemsTransferred : Nat
  xpAwarded : Nat
deriving Repr, DecidableEq

/-- ChatTrimmer.calculateStatistics. -/
def calculateStatistics (entries : List Entry)
    (detectedCombats : List CombatDetector.CombatSummary) : TrimStats :=
  let base : TrimStats :=
    { totalCombats := detectedCombats.length, totalDialogues := 0,
      totalSkillChecks := 0, totalRolls := 0, criticalSuccesses := 0,
      criticalFails := 0, itemsTransferred := 0, xpAwarded := 0 }
  entries.foldl
    (fun stats entry =>
      match entry.originalMessage with
      | some om =>
        if MessageParser.isRoll om then
          let stats1 := { stats with totalRolls := stats.totalRolls + 1 }
          if om.flags.pf2eContextOutcome == "criticalSuccess" then
            { stats1 with criticalSuccesses := stats1.criticalSuccesses + 1 }
          else if om.flags.pf2eContextOutcome == "criticalFailure" then
            { stats1 with criticalFails := stats1.criticalFails + 1 }
          else
            let combined := strToLower om.content ++ " " ++ strToLower om.flavor
            if strIncludes combined "critical success" ||
                strIncludes combined "critical hit" ||
                strIncludes combined "class=\"criticalsuccess\"" then
              { stats1 with criticalSuccesses := stats1.criticalSuccesses + 1 }
            else if strIncludes combined "critical failure" ||
                strIncludes combined "critical miss" ||
                strIncludes combined "fumble" ||
                strIncludes combined "class=\"criticalfailure\"" then
              { stats1 with criticalFails := stats1.criticalFails + 1 }
            else stats1
        else stats
      | none => stats)
    base

/-- Keyword/actor/scene search index (KeywordExtractor.buildSearchIndex output;
that module is outside the embedded sources, so the index builder is passed to
`trim` as an opaque function). -/
structure SearchIndex where
  keywords : List String
  actors : List String
  scenes : List String
deriving Repr, DecidableEq

/-- The object handed to `archiveManager.create` at step 6 of `trim`. -/
structure ArchiveData where
  entries : List Entry
  searchIndex : SearchIndex
  stats : TrimStats
  originalMessageCount : Nat
  compressedEntryCount : Nat
deriving Repr, DecidableEq

/-- The settings read by ChatTrimmer.trim. -/
structure TrimSettings where
  messagesToKeep : Nat
  enableArchiving : Bool
  enableCombatCompression : Bool
deriving Repr, DecidableEq

/-- The options argument of ChatTrimmer.trim. -/
structure TrimOptions where
  ignoreKeep : Bool
  keepOriginals : Bool
deriving Repr, DecidableEq

/-- The value ChatTrimmer.trim returns to its caller (`null` is `none`);
`H` is the storage-backend archive-handle type. -/
structure TrimResult (H : Type) where
  archive : Option H
  stats : Option TrimStats
  compressionRatio : Nat
deriving DecidableEq

/-- Result plus the side effects of one trim call: the message ids deleted via
`ChatMessage.deleteDocuments` and the archive data handed to the storage
backend when the create call succeeded. -/
structure TrimOutcome (H : Type) where
  result : Option (TrimResult H)
  deletedIds : List Nat
  created : Option ArchiveData
deriving DecidableEq

/-- ChatTrimmer.trim. The storage backend (`archiveManager.create`) is the
explicit `backendCreate` argument; a thrown storage error is `.error`, which
the JS `catch` block turns into a `null` return with no deletion. -/
def trim {H : Type} (ctx : GameCtx) (settings : TrimSettings) (opts : TrimOptions)
    (messages : List Msg) (buildSearchIndex : List Entry → SearchIndex)
    (backendCreate : ArchiveData → Except Unit H) : TrimOutcome H :=
  if !opts.ignoreKeep && settings.messagesToKeep > 0 &&
      messages.length ≤ settings.messagesToKeep then
    { result := none, deletedIds := [], created := none }
  else
    let msgs :=
      if !opts.ignoreKeep && settings.messagesToKeep > 0 then
        messages.take (messages.length - settings.messagesToKeep)
      else messages
    if msgs.length == 0 then { result := none, deletedIds := [], created := none }
    else if !settings.enableArchiving then
      { result := some { archive := none, stats := none, compressionRatio := 0 },
        deletedIds := msgs.map (·.id), created := none }
    else
      let classified := classifyMessages ctx msgs
      let detected :=
        if settings.enableCombatCompression && !classified.combat.isEmpty then
          CombatDetector.detect ctx classified.combat
        else []
      let entries := createArchiveEntries ctx detected classified
      let searchIndex := buildSearchIndex entries
      let stats := calculateStatistics entries detected
      let data : ArchiveData :=
        { entries := entries, searchIndex := searchIndex, stats := stats,
          originalMessageCount := msgs.length, compressedEntryCount := entries.length }
      match backendCreate data with
      | .error _ => { result := none, deletedIds := [], created := none }
      | .ok archive =>
        { result := some { archive := some archive, stats := some stats,
                           compressionRatio := jsRoundRatio msgs.length entries.length }
          deletedIds := if opts.keepOriginals then [] else msgs.map (·.id)
          created := some data }

end ChatTrimmer

namespace ArchiveManager

/-- The statistics fields read and written by appendToArchive on the archive
flags (`statistics`). -/
structure ArchiveStats where
  totalCombats : Nat
  totalDialogues : Nat
  totalSkillChecks : Nat
  totalRolls : Nat
  criticalHits : Nat
  criticalFails : Nat
  itemsTransferred : Nat
  xpAwarded : Nat
deriving Repr, DecidableEq

/-- The archive flags state appendToArchive reads and rewrites (entries,
counts, statistics, search index). -/
structure ArchiveState where
  entries : List ChatTrimmer.Entry
  originalMessageCount : Nat
  compressedEntryCount : Nat
  compressionRatio : Nat
  statistics : ArchiveStats
  searchIndex : ChatTrimmer.SearchIndex
deriving DecidableEq

/-- ArchiveManager.appendToArchive, as the pure merge of the existing archive
flags with the new pass data; both storage branches (journal update, external
file rewrite) persist exactly this merged state. The JS reads
`data.stats?.criticalHits`, a field `calculateStatistics` never produces (it
produces `criticalSuccesses`), so the appended critical-hit count is 0. -/
def appendToArchive (archive : ArchiveState) (data : ChatTrimmer.ArchiveData) :
    ArchiveState :=
  let allEntries :=
    sortByKey (fun e => e.timestamp) (archive.entries ++ data.entries)
  let newOriginalCount := archive.originalMessageCount + data.originalMessageCount
  let newCompressedCount := allEntries.length
  { entries := allEntries
    originalMessageCount := newOriginalCount
    compressedEntryCount := newCompressedCount
    compressionRatio := jsRoundRatio newOriginalCount newCompressedCount
    statistics :=
      { totalCombats := archive.statistics.totalCombats + data.stats.totalCombats
        totalDialogues := archive.statistics.totalDialogues + data.stats.totalDialogues
        totalSkillChecks := archive.statistics.totalSkillChecks + data.stats.totalSkillChecks
        totalRolls := archive.statistics.totalRolls + data.stats.totalRolls
        criticalHits := archive.statistics.criticalHits + 0
        criticalFails := archive.statistics.criticalFails + data.stats.criticalFails
        itemsTransferred := archive.statistics.itemsTransferred + data.stats.itemsTransferred
        xpAwarded := archive.statistics.xpAwarded + data.stats.xpAwarded }
    searchIndex :=
      { keywords := archive.searchIndex.keywords ++ data.searchIndex.keywords
        actors := jsSetDedup (archive.searchIndex.actors ++ data.searchIndex.actors)
        scenes := jsSetDedup (archive.searchIndex.scenes ++ data.searchIndex.scenes) } }

end ArchiveManager

/-- Message ids accumulated in a detector state: ids inside the finalized
combats plus ids of the open `combatMessages` list. -/
def CombatDetector.stateIds (s : CombatDetector.DetectState) : List Nat :=
  s.combats.flatMap (fun c => c.originalMessageIds) ++ s.msgs.map (fun m => m.id)

/-- Steps 1-3 of one compression pass of ChatTrimmer.trim: classify, run the
detector when enabled and the combat bucket is nonempty, build the entries. -/
def ChatTrimmer.compressionPassEntries (ctx : GameCtx)
    (enableCombatCompression : Bool) (messages : List Msg) :
    List ChatTrimmer.Entry :=
  let classified := ChatTrimmer.classifyMessages ctx messages
  let detected :=
    if enableCombatCompression && !classified.combat.isEmpty then
      CombatDetector.detect ctx classified.combat
    else []
  ChatTrimmer.createArchiveEntries ctx detected classified

/-- Modelled from the spec (section 4.2): the critical-message rule as the spec
states it, with the fixed phrase set matched against the markup-stripped body
text. Only for comparison with `ChatTrimmer.isCriticalMessage`, which matches
the raw (markup-preserving) content. -/
def isCriticalMessageSpec (m : Msg) : Bool :=
  let content := strToLower (MessageParser.stripHTML m.content)
  strIncludes content "critical hit" ||
    strIncludes content "critical miss" ||
    strIncludes content "death save" ||
    strIncludes content "level up" ||
    strIncludes content "xp" ||
    strIncludes content "dies" ||
    strIncludes content "unconscious"

/-- Empty flag set for test messages. -/
def noFlags : MsgFlags :=
  { initiativeRoll := false, pf2eContextType := "", pf2eContextOutcome := "",
    pf2eHeroPoints := false, pf2eOriginType := "", pf2eOriginItemLevel := none }

/-- Plain test message: no roll, no whisper, no flags. -/
def mkPlainMsg (i : Nat) (ts : Int) (content : String) (who : String) : Msg :=
  { id := i, timestamp := ts, content := content, flavor := "",
    style := STYLE_OTHER, isRollProp := false, rolls := [], whisper := [],
    speaker := { aliasName := who, actor := "" }, flags := noFlags }

/-- Context with an active combat and no known actors. -/
def ctxActive : GameCtx := { activeCombat := true, actors := [], sceneName := "" }

/-- Context with no active combat and no known actors. -/
def ctxIdle : GameCtx := { activeCombat := false, actors := [], sceneName := "" }

/-- C3 scenario: combat start at t = 0. -/
def c3Start : Msg := mkPlainMsg 1 0 "Combat has started! Roll initiative" "GM"
/-- C3 scenario: absorbed action at t = 60000. -/
def c3Action : Msg := mkPlainMsg 2 60000 "Alice attacks the goblin and hits" "Alice"
/-- C3 scenario: a combat-keyword record arriving 300001 ms after the last
absorbed record (beyond the 5-minute timeout). -/
def c3Late : Msg := mkPlainMsg 3 (60000 + 300001) "Bob attacks the goblin" "Bob"

/-- C4 counterexample message: a PF2e attack-roll context flag and no other
signals. -/
def c4AttackMsg : Msg :=
  { mkPlainMsg 7 5 "strike" "Alice" with
    flags := { noFlags with pf2eContextType := "attack-roll" } }

/-- An always-failing storage backend (`archiveManager.create` throwing). -/
def failBackend : ChatTrimmer.ArchiveData → Except Unit ArchiveManager.ArchiveState :=
  fun _ => .error ()

/-- A storage backend whose create call succeeds, returning the stored state. -/
def okBackend : ChatTrimmer.ArchiveData → Except Unit ArchiveManager.ArchiveState :=
  fun d => .ok
    { entries := d.entries, originalMessageCount := d.originalMessageCount,
      compressedEntryCount := d.compressedEntryCount, compressionRatio := 0,
      statistics := { totalCombats := 0, totalDialogues := 0, totalSkillChecks := 0,
                      totalRolls := 0, criticalHits := 0, criticalFails := 0,
                      itemsTransferred := 0, xpAwarded := 0 },
      searchIndex := d.searchIndex }

/-- An opaque search-index builder (KeywordExtractor is outside the embedded
sources). -/
def emptySearchIndexFn : List ChatTrimmer.Entry → ChatTrimmer.SearchIndex :=
  fun _ => { keywords := [], actors := [], scenes := [] }

/-- Settings with archiving and combat compression on and no keep limit. -/
def settingsArchiveAll : ChatTrimmer.TrimSettings :=
  { messagesToKeep := 0, enableArchiving := true, enableCombatCompression := true }

/-- Default options: respect the keep setting, delete originals. -/
def optionsDefault : ChatTrimmer.TrimOptions :=
  { ignoreKeep := false, keepOriginals := false }

/-- C6 scenario context: active combat, Alice is a player character, a scene. -/
def c6Ctx : GameCtx :=
  { activeCombat := true,
    actors := [("a1", { name := "Alice", hasPlayerOwner := true })],
    sceneName := "Cave" }

/-- C6 scenario record builder: record 1 is the initiative start, record 47 the
combat end, record 24 the critical hit, record 25 the death, the other 43
alternate attack and damage records, one second apart. -/
def c6Msg (i : Nat) : Msg :=
  if i == 0 then mkPlainMsg 1 1000000 "Combat has started! Roll initiative" "GM"
  else if i == 46 then mkPlainMsg 47 (1000000 + 46 * 1000) "Combat has ended" "GM"
  else if i == 23 then
    mkPlainMsg 24 (1000000 + 23 * 1000) "Alice lands a critical hit with her attack" "Alice"
  else if i == 24 then
    mkPlainMsg 25 (1000000 + 24 * 1000) "The goblin takes 8 damage and dies" "Goblin"
  else if i % 2 == 1 then
    mkPlainMsg (i + 1) (1000000 + i * 1000) "Alice attacks the goblin and hits" "Alice"
  else mkPlainMsg (i + 1) (1000000 + i * 1000) "The goblin takes 5 damage" "Goblin"

/-- The 47 time-ordered records of the C6 scenario. -/
def c6Msgs : List Msg := (List.range 47).map c6Msg

/-- The classification of the C6 batch. -/
def c6Classified : ChatTrimmer.Classified := ChatTrimmer.classifyMessages c6Ctx c6Msgs

/-- The encounters detected on the C6 combat bucket. -/
def c6Detected : List CombatDetector.CombatSummary :=
  CombatDetector.detect c6Ctx c6Classified.combat

/-- The archive entries of the C6 pass. -/
def c6Entries : List ChatTrimmer.Entry :=
  ChatTrimmer.createArchiveEntries c6Ctx c6Detected c6Classified

/-- The full C6 trim call with a succeeding backend. -/
def c6Outcome : ChatTrimmer.TrimOutcome ArchiveManager.ArchiveState :=
  ChatTrimmer.trim c6Ctx settingsArchiveAll optionsDefault c6Msgs
    emptySearchIndexFn okBackend

/-- C8 counterexample: the phrase appears only inside markup (a class
attribute), so the stripped text contains no phrase while the raw text does. -/
def c8Msg : Msg := mkPlainMsg 9 0 "<span class=\"death save\">ok</span>" "X"

/-- C9 counterexample: one participant with an interior digit, unresolvable
(hence a non-player participant), and a message without ambush/boss keywords. -/
def c9Open : CombatDetector.OpenCombat :=
  { startTime := 0, startMessageId := 1, participants := ["Go2blin"],
    rounds := [], casualties := [], endTime := none, endMessageId := none }

/-- C9 counterexample message list. -/
def c9Msgs : List Msg := [mkPlainMsg 1 0 "plain fight text" "X"]

/-- C2 sample entry. -/
def c2Entry : ChatTrimmer.Entry :=
  { type := "individual", category := "all", categories := none, timestamp := 5,
    speaker := "X", summary := none, originalMessage := none,
    originalMessageIds := [1], isKeyEvent := false }

/-- C2 sample pass data (as produced by processing one batch). -/
def c2Data : ChatTrimmer.ArchiveData :=
  { entries := [c2Entry],
    searchIndex := { keywords := ["a"], actors := ["Alice"], scenes := ["s"] },
    stats := { totalCombats := 1, totalDialogues := 0, totalSkillChecks := 0,
               totalRolls := 2, criticalSuccesses := 1, criticalFails := 0,
               itemsTransferred := 0, xpAwarded := 0 },
    originalMessageCount := 1, compressedEntryCount := 1 }

/-- C2 sample existing archive. -/
def c2Archive : ArchiveManager.ArchiveState :=
  { entries := [c2Entry], originalMessageCount := 1, compressedEntryCount := 1,
    compressionRatio := 0,
    statistics := { totalCombats := 1, totalDialogues := 0, totalSkillChecks := 0,
                    totalRolls := 2, criticalHits := 0, criticalFails := 0,
                    itemsTransferred := 0, xpAwarded := 0 },
    searchIndex := { keywords := ["a"], actors := ["Alice"], scenes := ["s"] } }

/-- C7 witness context: Bob is a player character, Gob is not. -/
def c7Ctx : GameCtx :=
  { activeCombat := true,
    actors := [("b1", { name := "Bob", hasPlayerOwner := true }),
               ("g1", { name := "Gob", hasPlayerOwner := false })],
    sceneName := "" }

/-- C7 witness open combat with a player-character casualty. -/
def c7Open : CombatDetector.OpenCombat :=
  { startTime := 0, startMessageId := 1, participants := ["Bob", "Gob"],
    rounds := [], casualties := ["Bob"], endTime := none, endMessageId := none }

/-- C3 amended-theorem witness state: an open combat that has absorbed the
start record. -/
def c3WitnessState : CombatDetector.DetectState :=
  { combats := [], current := some (CombatDetector.newOpenCombat c3Start),
    msgs := [c3Start] }

/-- C3 amended-theorem witness record: no start, combat, or end keyword, and a
gap beyond the timeout. -/
def c3Quiet : Msg := mkPlainMsg 5 (0 + 300001) "hello there my friends" "Bob"

/-- C10 witness batch: three messages with distinct ids. -/
def c10Msgs : List Msg :=
  [mkPlainMsg 1 10 "one" "A", mkPlainMsg 2 20 "two" "B", mkPlainMsg 3 30 "three" "C"]

/-- C10 witness settings: keep two most recent messages. -/
def c10Settings : ChatTrimmer.TrimSettings :=
  { messagesToKeep := 2, enableArchiving := true, enableCombatCompression := true }

/-- C1 witness batch. -/
def c1Msgs : List Msg :=
  [mkPlainMsg 1 0 "Combat has started! Roll initiative" "GM",
   mkPlainMsg 2 1000 "Alice attacks the goblin and hits" "Alice",
   mkPlainMsg 3 2000 "a quiet chat message" "Bob"]

/-- C5 counterexample batch: one plain message. -/
def c5Msgs : List Msg := [mkPlainMsg 1 0 "hello there" "A"]

/-! Helper lemmas about `jsSetDedup` (JS set semantics of the search-index
merge). -/

theorem mem_jsSetDedup {b : String} : ∀ {l : List String}, b ∈ jsSetDedup l ↔ b ∈ l := by
  intro l
  induction l using jsSetDedup.induct with
  | case1 => simp [jsSetDedup]
  | case2 a t IH =>
    rw [jsSetDedup]
    rw [List.mem_cons, List.mem_cons, IH, List.mem_filter]
    by_cases hba : b = a
    · simp [hba]
    · simp [hba]

theorem jsSetDedup_nodup : ∀ (l : List String), (jsSetDedup l).Nodup := by
  intro l
  induction l using jsSetDedup.induct with
  | case1 => simp [jsSetDedup]
  | case2 a t IH =>
    rw [jsSetDedup]
    refine List.nodup_cons.mpr ⟨?_, IH⟩
    rw [mem_jsSetDedup]
    simp [List.mem_filter]

theorem jsSetDedup_eq_self : ∀ (l : List String), l.Nodup → jsSetDedup l = l := by
  intro l
  induction l using jsSetDedup.induct with
  | case1 => intro _; simp [jsSetDedup]
  | case2 a t IH =>
    intro h
    rw [jsSetDedup]
    have ha : a ∉ t := (List.nodup_cons.mp h).1
    have hf : List.filter (fun b => decide (b ≠ a)) t = t :=
      List.filter_eq_self.mpr (fun x hx => decide_eq_true (by rintro rfl; exact ha hx))
    rw [hf] at IH
    rw [hf, IH (List.nodup_cons.mp h).2]

theorem jsSetDedup_idem (l : List String) : jsSetDedup (jsSetDedup l) = jsSetDedup l :=
  jsSetDedup_eq_self _ (jsSetDedup_nodup l)

theorem jsSetDedup_append_absorb :
    ∀ (x : List String), ∀ (y : List String), (∀ b ∈ y, b ∈ x) →
      jsSetDedup (x ++ y) = jsSetDedup x := by
  intro x
  induction x using jsSetDedup.induct with
  | case1 =>
    intro y hy
    cases y with
    | nil => rfl
    | cons b t => exact absurd (hy b (by simp)) (by simp)
  | case2 a t IH =>
    intro y hy
    rw [List.cons_append, jsSetDedup, jsSetDedup, List.filter_append]
    rw [IH (y.filter (fun b => decide (b ≠ a))) ?_]
    intro b hb
    rcases List.mem_filter.mp hb with ⟨hby, hbna⟩
    have hbne : b ≠ a := of_decide_eq_true hbna
    rcases hy b hby with hmem
    rcases List.mem_cons.mp hmem with h1 | h2
    · exact absurd h1 hbne
    · exact List.mem_filter.mpr ⟨h2, hbna⟩

/-! Helper lemmas for the completeness invariant (C1): the ids absorbed by the
detector form a subsequence of the input ids. -/

theorem finalizeCombat_ids (ctx : GameCtx) (c : CombatDetector.OpenCombat)
    (msgs : List Msg) :
    (CombatDetector.finalizeCombat ctx c msgs).originalMessageIds =
      msgs.map (fun m => m.id) := rfl

theorem detectStep_stateIds (ctx : GameCtx) (s : CombatDetector.DetectState) (m : Msg) :
    (CombatDetector.stateIds (CombatDetector.detectStep ctx s m)).Sublist
      (CombatDetector.stateIds s ++ [m.id]) := by
  unfold CombatDetector.detectStep
  by_cases h1 : CombatDetector.isCombatStart m
  · cases hc : s.current with
    | some c =>
      simp [h1, hc, CombatDetector.stateIds, List.flatMap_append, finalizeCombat_ids]
    | none =>
      simp only [h1, if_true, hc, CombatDetector.stateIds, List.flatMap_append,
        List.flatMap_nil, List.append_nil, List.map_cons, List.map_nil,
        List.append_assoc]
      exact List.Sublist.append_left (List.sublist_append_right _ _) _
  · cases hc : s.current with
    | none =>
      simp only [h1, if_false, hc, CombatDetector.stateIds, List.append_assoc]
      exact List.Sublist.append_left (List.sublist_append_left _ _) _
    | some c =>
      by_cases h2 : CombatDetector.isCombatMessage ctx m
      · simp [h1, hc, h2, CombatDetector.stateIds, List.flatMap_append]
      · by_cases h3 : CombatDetector.isCombatEnd m
        · simp [h1, hc, h2, h3, CombatDetector.stateIds, List.flatMap_append,
            finalizeCombat_ids]
        · cases hl : s.msgs.getLast? with
          | some lastM =>
            by_cases h4 : m.timestamp - lastM.timestamp > CombatDetector.combatTimeout
            · simp only [h1, if_false, hc, h2, h3, hl, h4, if_true,
                Bool.false_eq_true, CombatDetector.stateIds, List.flatMap_append,
                List.flatMap_cons, List.flatMap_nil, List.append_nil, List.map_nil,
                finalizeCombat_ids, List.append_assoc]
              exact List.Sublist.append_left (List.sublist_append_left _ _) _
            · simp only [h1, if_false, hc, h2, h3, hl, h4, Bool.false_eq_true,
                CombatDetector.stateIds, List.append_assoc]
              exact List.Sublist.append_left (List.sublist_append_left _ _) _
          | none =>
            simp only [h1, if_false, hc, h2, h3, hl, Bool.false_eq_true,
              CombatDetector.stateIds, List.append_assoc]
            exact List.Sublist.append_left (List.sublist_append_left _ _) _

theorem foldl_detectStep_stateIds (ctx : GameCtx) :
    ∀ (l : List Msg) (s : CombatDetector.DetectState),
      (CombatDetector.stateIds (l.foldl (CombatDetector.detectStep ctx) s)).Sublist
        (CombatDetector.stateIds s ++ l.map (fun m => m.id)) := by
  intro l
  induction l with
  | nil => intro s; simp
  | cons m t IH =>
    intro s
    rw [List.foldl_cons]
    refine (IH (CombatDetector.detectStep ctx s m)).trans ?_
    have h1 := (detectStep_stateIds ctx s m).append_right (t.map (fun m => m.id))
    rw [List.map_cons, List.append_assoc] at *
    simpa using h1

theorem detect_ids_sublist (ctx : GameCtx) (l : List Msg) :
    ((CombatDetector.detect ctx l).flatMap (fun c => c.originalMessageIds)).Sublist
      (l.map (fun m => m.id)) := by
  unfold CombatDetector.detect
  have hfold := foldl_detectStep_stateIds ctx l
      { combats := [], current := none, msgs := [] }
  simp only [CombatDetector.stateIds, List.flatMap_nil, List.map_nil,
    List.nil_append, List.append_nil] at hfold
  set final := l.foldl (CombatDetector.detectStep ctx)
      { combats := [], current := none, msgs := [] } with hfinal
  cases hc : final.current with
  | some c =>
    cases hl : final.msgs.getLast? with
    | some lastM =>
      simp only [hc, hl, List.flatMap_append, List.flatMap_cons, List.flatMap_nil,
        List.append_nil, finalizeCombat_ids]
      exact hfold
    | none =>
      simp only [hc, hl, List.flatMap_append, List.flatMap_nil, List.append_nil]
      exact (List.sublist_append_left _ _).trans hfold
  | none =>
    simp only [hc, List.flatMap_append, List.flatMap_nil, List.append_nil]
    exact (List.sublist_append_left _ _).trans hfold

/-! Helper lemmas for assembling the completeness permutation. -/

theorem classify_combat (ctx : GameCtx) (msgs : List Msg) :
    (ChatTrimmer.classifyMessages ctx msgs).combat =
      msgs.filter (fun m => ChatTrimmer.isCombatMessage ctx m) := rfl

theorem classify_critical (ctx : GameCtx) (msgs : List Msg) :
    (ChatTrimmer.classifyMessages ctx msgs).critical =
      msgs.filter ChatTrimmer.isCriticalMessage := rfl

theorem classify_all (ctx : GameCtx) (msgs : List Msg) :
    (ChatTrimmer.classifyMessages ctx msgs).all = msgs := rfl

theorem map_id_filter (p : Nat → Bool) (l : List Msg) :
    ((l.filter (fun m => p m.id)).map (fun m => m.id)) =
      (l.map (fun m => m.id)).filter p := by
  induction l with
  | nil => rfl
  | cons m t IH =>
    by_cases hm : p m.id
    · simp [List.filter_cons, hm, IH]
    · simp [List.filter_cons, hm, IH]

theorem flatMap_single {α β : Type} (f : α → β) (l : List α) :
    (l.flatMap (fun a => [f a])) = l.map f := by
  induction l with
  | nil => rfl
  | cons a t IH => simp [List.flatMap_cons, IH]

theorem critFold_eq (ctx : GameCtx) :
    ∀ (l : List Msg) (es : List ChatTrimmer.Entry) (proc : List Nat),
      (l.map (fun m => m.id)).Nodup →
      l.foldl
          (fun (acc : List ChatTrimmer.Entry × List Nat) m =>
            if m.id ∈ acc.2 then acc
            else (acc.1 ++ [ChatTrimmer.criticalEntry ctx m], acc.2 ++ [m.id]))
          (es, proc) =
        (es ++ (l.filter (fun m => decide (m.id ∉ proc))).map
            (ChatTrimmer.criticalEntry ctx),
         proc ++ (l.filter (fun m => decide (m.id ∉ proc))).map (fun m => m.id)) := by
  intro l
  induction l with
  | nil => intro es proc _; simp
  | cons m t IH =>
    intro es proc hnd
    have hmt : m.id ∉ t.map (fun m => m.id) := (List.nodup_cons.mp (by simpa using hnd)).1
    have hnd2 : (t.map (fun m => m.id)).Nodup := (List.nodup_cons.mp (by simpa using hnd)).2
    rw [List.foldl_cons]
    by_cases hm : m.id ∈ proc
    · simp only [hm, if_true]
      rw [IH es proc hnd2]
      have hfc : List.filter (fun m => decide (m.id ∉ proc)) (m :: t) =
          List.filter (fun m => decide (m.id ∉ proc)) t := by
        simp [List.filter_cons, hm]
      rw [hfc]
    · simp only [hm, if_false]
      rw [IH (es ++ [ChatTrimmer.criticalEntry ctx m]) (proc ++ [m.id]) hnd2]
      have hfc2 : List.filter (fun x => decide (x.id ∉ proc ++ [m.id])) t =
          List.filter (fun x => decide (x.id ∉ proc)) t := by
        refine List.filter_congr (fun x hx => ?_)
        have hne : x.id ≠ m.id := by
          intro he
          exact hmt (he ▸ List.mem_map_of_mem (fun m => m.id) hx)
        simp [List.mem_append, hne]
      have hfc3 : List.filter (fun m => decide (m.id ∉ proc)) (m :: t) =
          m :: List.filter (fun m => decide (m.id ∉ proc)) t := by
        simp [List.filter_cons, hm]
      rw [hfc2, hfc3]
      simp [List.append_assoc]

theorem perm_part_filter {D P : List Nat} (hD : D.Nodup) (hP : P.Nodup)
    (hsub : ∀ x ∈ P, x ∈ D) :
    (P ++ D.filter (fun x => decide (x ∉ P))).Perm D := by
  have hfp : (D.filter (fun x => decide (x ∈ P)) ++
      D.filter (fun x => !decide (x ∈ P))).Perm D :=
    List.filter_append_perm _ D
  have hPF : P.Perm (D.filter (fun x => decide (x ∈ P))) := by
    rw [List.perm_ext_iff_of_nodup hP (hD.filter _)]
    intro a
    constructor
    · intro ha
      exact List.mem_filter.mpr ⟨hsub a ha, decide_eq_true ha⟩
    · intro ha
      exact of_decide_eq_true (List.mem_filter.mp ha).2
  have hneg : (fun x => decide (x ∉ P)) = fun x => !decide (x ∈ P) := by
    funext x
    simp [decide_not]
  rw [hneg]
  exact (hPF.append_right _).trans hfp

theorem insertByKey_perm {α : Type} (key : α → Int) (a : α) :
    ∀ (l : List α), (insertByKey key a l).Perm (a :: l) := by
  intro l
  induction l with
  | nil => simp [insertByKey]
  | cons b t IH =>
    rw [insertByKey]
    by_cases h : key a < key b
    · rw [if_pos h]
    · rw [if_neg h]
      exact (IH.cons b).trans (List.Perm.swap a b t)

theorem foldl_insertByKey_perm {α : Type} (key : α → Int) :
    ∀ (l acc : List α),
      (l.foldl (fun acc a => insertByKey key a acc) acc).Perm (acc ++ l) := by
  intro l
  induction l with
  | nil => intro acc; simp
  | cons a t IH =>
    intro acc
    rw [List.foldl_cons]
    refine (IH (insertByKey key a acc)).trans ?_
    refine (List.Perm.append_right t (insertByKey_perm key a acc)).trans ?_
    exact List.perm_middle.symm

theorem sortByKey_perm {α : Type} (key : α → Int) (l : List α) :
    (sortByKey key l).Perm l := by
  have h := foldl_insertByKey_perm key l []
  simpa [sortByKey] using h

theorem sortByKey_length {α : Type} (key : α → Int) (l : List α) :
    (sortByKey key l).length = l.length :=
  (sortByKey_perm key l).length_eq

theorem combatEntry_ids (c : CombatDetector.CombatSummary) :
    (ChatTrimmer.combatEntry c).originalMessageIds = c.originalMessageIds := rfl

theorem criticalEntry_ids (ctx : GameCtx) (m : Msg) :
    (ChatTrimmer.criticalEntry ctx m).originalMessageIds = [m.id] := rfl

theorem individualEntry_ids (ctx : GameCtx) (m : Msg) :
    (ChatTrimmer.individualEntry ctx m).originalMessageIds = [m.id] := rfl

theorem createArchiveEntries_ids_perm (ctx : GameCtx)
    (detected : List CombatDetector.CombatSummary) (msgs : List Msg)
    (hD : (msgs.map (fun m => m.id)).Nodup)
    (hsub : (detected.flatMap (fun c => c.originalMessageIds)).Sublist
      ((msgs.filter (fun m => ChatTrimmer.isCombatMessage ctx m)).map (fun m => m.id))) :
    ((ChatTrimmer.createArchiveEntries ctx detected
        (ChatTrimmer.classifyMessages ctx msgs)).flatMap
      (fun e => e.originalMessageIds)).Perm (msgs.map (fun m => m.id)) := by
  have hP0D : (detected.flatMap (fun c => c.originalMessageIds)).Sublist
      (msgs.map (fun m => m.id)) :=
    hsub.trans (List.Sublist.map _ (List.filter_sublist msgs))
  have hCD : (((msgs.filter ChatTrimmer.isCriticalMessage).map (fun m => m.id))).Sublist
      (msgs.map (fun m => m.id)) :=
    List.Sublist.map _ (List.filter_sublist msgs)
  have hCnd : ((msgs.filter ChatTrimmer.isCriticalMessage).map (fun m => m.id)).Nodup :=
    List.Nodup.sublist hCD hD
  simp only [ChatTrimmer.createArchiveEntries, classify_critical, classify_all]
  have hfold := critFold_eq ctx (msgs.filter ChatTrimmer.isCriticalMessage) []
      (detected.flatMap (fun c => c.originalMessageIds)) hCnd
  simp only [hfold, List.nil_append]
  refine (List.Perm.flatMap_right _ (sortByKey_perm _ _)).trans ?_
  rw [List.flatMap_append, List.flatMap_append, List.flatMap_map, List.flatMap_map,
    List.flatMap_map]
  simp only [combatEntry_ids, criticalEntry_ids, individualEntry_ids, flatMap_single]
  rw [map_id_filter (fun x => decide (x ∉ detected.flatMap
        (fun c => c.originalMessageIds))) (msgs.filter ChatTrimmer.isCriticalMessage)]
  rw [map_id_filter (fun x => decide (x ∉ detected.flatMap
        (fun c => c.originalMessageIds) ++
        List.filter (fun x => decide (x ∉ detected.flatMap
          (fun c => c.originalMessageIds)))
          (List.map (fun m => m.id)
            (List.filter ChatTrimmer.isCriticalMessage msgs)))) msgs]
  refine perm_part_filter hD ?_ ?_
  · rw [List.nodup_append]
    refine ⟨List.Nodup.sublist hP0D hD, List.Nodup.filter _ hCnd, ?_⟩
    intro a ha hb
    rcases List.mem_filter.mp hb with ⟨_, hdec⟩
    exact (of_decide_eq_true hdec) ha
  · intro x hx
    rcases List.mem_append.mp hx with h1 | h2
    · exact hP0D.subset h1
    · exact hCD.subset (List.mem_filter.mp h2).1

/-- C1: for every input batch with distinct record ids, the multiset union of
originalMessageIds across all archive entries produced by one compression pass
(createArchiveEntries over the detector output and the classification) is
exactly the input record-id set: no record lost and no record in more than one
entry. -/
theorem c1_compression_pass_ids_complete (ctx : GameCtx)
    (enableCombatCompression : Bool) (msgs : List Msg)
    (hD : (msgs.map (fun m => m.id)).Nodup) :
    ((ChatTrimmer.compressionPassEntries ctx enableCombatCompression msgs).flatMap
      (fun e => e.originalMessageIds)).Perm (msgs.map (fun m => m.id)) := by
  simp only [ChatTrimmer.compressionPassEntries]
  by_cases hc : (enableCombatCompression &&
      !(ChatTrimmer.classifyMessages ctx msgs).combat.isEmpty) = true
  · rw [if_pos hc]
    exact createArchiveEntries_ids_perm ctx _ msgs hD (detect_ids_sublist ctx _)
  · rw [if_neg hc]
    exact createArchiveEntries_ids_perm ctx _ msgs hD (List.nil_sublist _)

/-- C1 witness: the completeness permutation on a concrete three-record batch
(start signal, attack, unrelated chat). -/
theorem c1_witness :
    (c1Msgs.map (fun m => m.id)).Nodup ∧
      ((ChatTrimmer.compressionPassEntries ctxActive true c1Msgs).flatMap
        (fun e => e.originalMessageIds)).Perm (c1Msgs.map (fun m => m.id)) :=
  ⟨by decide, c1_compression_pass_ids_complete ctxActive true c1Msgs (by decide)⟩

/-- C7: for every finalized encounter the computed outcome is Defeat when some
recorded casualty resolves to a player-controlled participant, else Victory
when at least one casualty exists, else Unknown. -/
theorem c7_outcome (ctx : GameCtx) (c : CombatDetector.OpenCombat) (msgs : List Msg) :
    ((∃ n ∈ c.casualties, CombatDetector.casualtyIsPC ctx n = true) →
        (CombatDetector.finalizeCombat ctx c msgs).outcome = "Defeat") ∧
      (c.casualties ≠ [] →
        (∀ n ∈ c.casualties, CombatDetector.casualtyIsPC ctx n = false) →
        (CombatDetector.finalizeCombat ctx c msgs).outcome = "Victory") ∧
      (c.casualties = [] →
        (CombatDetector.finalizeCombat ctx c msgs).outcome = "Unknown") := by
  have houtcome : (CombatDetector.finalizeCombat ctx c msgs).outcome =
      (if c.casualties.length > 0 then
        if c.casualties.any (CombatDetector.casualtyIsPC ctx) then "Defeat"
        else "Victory"
      else "Unknown") := rfl
  refine ⟨fun hex => ?_, fun hne hall => ?_, fun hnil => ?_⟩
  · rcases hex with ⟨n, hn, hpc⟩
    have hlen : c.casualties.length > 0 :=
      List.length_pos.mpr (List.ne_nil_of_mem hn)
    have hany : c.casualties.any (CombatDetector.casualtyIsPC ctx) = true :=
      List.any_eq_true.mpr ⟨n, hn, hpc⟩
    rw [houtcome, if_pos hlen, if_pos hany]
  · have hlen : c.casualties.length > 0 := List.length_pos.mpr hne
    have hany : ¬(c.casualties.any (CombatDetector.casualtyIsPC ctx) = true) := by
      rw [List.any_eq_true]
      rintro ⟨n, hn, hpc⟩
      rw [hall n hn] at hpc
      exact Bool.false_ne_true hpc
    rw [houtcome, if_pos hlen, if_neg hany]
  · rw [houtcome, if_neg (by simp [hnil])]

/-- C7 witness: a concrete encounter whose single casualty is a player
character resolves to Defeat. -/
theorem c7_witness :
    (CombatDetector.finalizeCombat c7Ctx c7Open []).outcome = "Defeat" :=
  (c7_outcome c7Ctx c7Open []).1 ⟨"Bob", by decide, by decide⟩

/-- C3 counterexample: a record whose content matches the combat-message rule
("Bob attacks the goblin"), arriving 300001 ms (more than the 5-minute
timeout) after the last absorbed record, is still absorbed into the open
encounter, because the detect loop tests isCombatMessage before the timeout. -/
theorem c3_counterexample :
    c3Late.timestamp - c3Action.timestamp > CombatDetector.combatTimeout ∧
      (CombatDetector.detect ctxActive [c3Start, c3Action, c3Late]).map
        (fun c => c.originalMessageIds) = [[1, 2, 3]] :=
  ⟨by decide, by decide⟩

/-- C3 amended: when an open encounter receives a record matching none of the
start, combat-message and end rules, and the gap since the last absorbed record
exceeds the 5-minute timeout, the encounter is finalized with endTime equal to
the last absorbed timestamp and the triggering record is dropped from the
combat sub-stream (not absorbed, not re-evaluated). -/
theorem c3_amended_timeout (ctx : GameCtx) (s : CombatDetector.DetectState)
    (c : CombatDetector.OpenCombat) (m lastM : Msg)
    (hc : s.current = some c) (hl : s.msgs.getLast? = some lastM)
    (h1 : CombatDetector.isCombatStart m = false)
    (h2 : CombatDetector.isCombatMessage ctx m = false)
    (h3 : CombatDetector.isCombatEnd m = false)
    (hgap : m.timestamp - lastM.timestamp > CombatDetector.combatTimeout) :
    CombatDetector.detectStep ctx s m =
      { combats := s.combats ++ [CombatDetector.finalizeCombat ctx
          { c with endTime := some lastM.timestamp } s.msgs]
        current := none, msgs := [] } ∧
      (m.id ∉ s.msgs.map (fun x => x.id) →
        m.id ∉ (CombatDetector.finalizeCombat ctx
          { c with endTime := some lastM.timestamp } s.msgs).originalMessageIds) := by
  constructor
  · unfold CombatDetector.detectStep
    rw [h1]
    simp only [Bool.false_eq_true, if_false, hc, h2, h3, hl, if_pos hgap]
  · intro hmem
    rw [finalizeCombat_ids]
    exact hmem

/-- C3 amended witness: a quiet record after the timeout closes the concrete
one-record encounter at the last absorbed timestamp and is not absorbed. -/
theorem c3_amended_witness :
    CombatDetector.detectStep ctxActive c3WitnessState c3Quiet =
      { combats := [CombatDetector.finalizeCombat ctxActive
          { CombatDetector.newOpenCombat c3Start with endTime := some c3Start.timestamp }
          [c3Start]]
        current := none, msgs := [] } ∧
      c3Quiet.id ∉ (CombatDetector.finalizeCombat ctxActive
        { CombatDetector.newOpenCombat c3Start with endTime := some c3Start.timestamp }
        [c3Start]).originalMessageIds := by
  have h := c3_amended_timeout ctxActive c3WitnessState
    (CombatDetector.newOpenCombat c3Start) c3Quiet c3Start rfl rfl
    (by decide) (by decide) (by decide) (by decide)
  exact ⟨h.1, h.2 (by decide)⟩

/-- C4 counterexample: with no combat active at the session level, a record
carrying a PF2e attack-roll context flag is still classified combat: the flag
checks in isCombatMessage run before the active-combat gate, so
classifyMessages puts the record into the combat bucket. -/
theorem c4_counterexample :
    ctxIdle.activeCombat = false ∧
      ChatTrimmer.isCombatMessage ctxIdle c4AttackMsg = true ∧
      (ChatTrimmer.classifyMessages ctxIdle [c4AttackMsg]).combat = [c4AttackMsg] :=
  ⟨rfl, by decide, by decide⟩

/-- C4 amended: when no combat episode is active, the category assignment
(determineMessageCategories) never produces the combat category, while the
combat-bucket classifier (isCombatMessage) still returns true exactly for the
flag signals: an explicit initiative-roll flag or a PF2e
attack-roll / spell-attack-roll / saving-throw / damage-roll context. -/
theorem c4_amended (ctx : GameCtx) (m : Msg) (h : ctx.activeCombat = false) :
    "combat" ∉ ChatTrimmer.determineMessageCategories ctx m ∧
      ChatTrimmer.isCombatMessage ctx m =
        (m.flags.initiativeRoll ||
          (m.flags.pf2eContextType == "attack-roll" ||
            m.flags.pf2eContextType == "spell-attack-roll" ||
            m.flags.pf2eContextType == "saving-throw" ||
            m.flags.pf2eContextType == "damage-roll")) := by
  constructor
  · intro hmem
    simp [ChatTrimmer.determineMessageCategories, h] at hmem
    split at hmem
    · simp at hmem
    · simp only [List.mem_append] at hmem
      rcases hmem with h1 | h1 | h1 | h1 | h1 | h1 | h1 <;>
        (split at h1 <;> simp at h1)
  · unfold ChatTrimmer.isCombatMessage
    rw [h]
    cases hb1 : m.flags.initiativeRoll
    · cases hb2 : (m.flags.pf2eContextType == "attack-roll" ||
          m.flags.pf2eContextType == "spell-attack-roll" ||
          m.flags.pf2eContextType == "saving-throw" ||
          m.flags.pf2eContextType == "damage-roll")
      · simp [hb2]
      · simp [hb2]
    · simp

/-- C4 amended witness: the PF2e attack-context record under the idle context. -/
theorem c4_amended_witness :
    "combat" ∉ ChatTrimmer.determineMessageCategories ctxIdle c4AttackMsg ∧
      ChatTrimmer.isCombatMessage ctxIdle c4AttackMsg =
        (c4AttackMsg.flags.initiativeRoll ||
          (c4AttackMsg.flags.pf2eContextType == "attack-roll" ||
            c4AttackMsg.flags.pf2eContextType == "spell-attack-roll" ||
            c4AttackMsg.flags.pf2eContextType == "saving-throw" ||
            c4AttackMsg.flags.pf2eContextType == "damage-roll")) :=
  c4_amended ctxIdle c4AttackMsg rfl

/-- C8 counterexample: a record whose only phrase occurrence sits inside a
markup attribute. The raw lower-cased content contains "death save", so
isCriticalMessage is true, while the markup-stripped text ("ok") contains no
phrase, so the spec reading (stripped text) is false. -/
theorem c8_counterexample :
    ChatTrimmer.isCriticalMessage c8Msg = true ∧
      isCriticalMessageSpec c8Msg = false :=
  ⟨by decide, by decide⟩

/-- C8 amended: the always-preserved flag is true iff the raw lower-cased
(markup-preserving) body text contains one of the fixed phrases: critical hit,
critical miss, death save, level up, xp, dies, unconscious. -/
theorem c8_amended (m : Msg) :
    ChatTrimmer.isCriticalMessage m =
      (["critical hit", "critical miss", "death save", "level up", "xp", "dies",
        "unconscious"].any (fun p => strIncludes (strToLower m.content) p)) := by
  simp [ChatTrimmer.isCriticalMessage, Bool.or_assoc]

/-- C9 counterexample: the single participant "Go2blin" resolves to no actor,
hence counts as a non-player participant; the generated title removes EVERY
digit run, giving "Goblin Encounter" instead of the trailing-digits-only
reading "Go2blin Encounter". -/
theorem c9_counterexample :
    CombatDetector.generateCombatTitle ctxIdle c9Open c9Msgs = "Goblin Encounter" ∧
      CombatDetector.generateCombatTitle ctxIdle c9Open c9Msgs ≠ "Go2blin Encounter" :=
  ⟨by decide, by decide⟩

/-- C9 amended: with no ambush/boss keyword in the episode messages, the title
is the first non-player participant name with every digit sequence removed and
the ends trimmed, followed by " Encounter"; with no non-player participants it
is the generic "Combat Encounter". -/
theorem c9_amended (ctx : GameCtx) (c : CombatDetector.OpenCombat) (msgs : List Msg)
    (hnk : ∀ m ∈ msgs, strIncludes (strToLower m.content) "ambush" = false ∧
      strIncludes (strToLower m.content) "boss" = false) :
    (∀ e es, CombatDetector.getEnemies ctx c.participants = e :: es →
        CombatDetector.generateCombatTitle ctx c msgs =
          strTrim (CombatDetector.stripDigitChars e) ++ " Encounter") ∧
      (CombatDetector.getEnemies ctx c.participants = [] →
        CombatDetector.generateCombatTitle ctx c msgs = "Combat Encounter") := by
  have hfind : msgs.find? (fun m =>
      strIncludes (strToLower m.content) "ambush" ||
        strIncludes (strToLower m.content) "boss") = none := by
    rw [List.find?_eq_none]
    intro m hm
    simp [(hnk m hm).1, (hnk m hm).2]
  constructor
  · intro e es he
    unfold CombatDetector.generateCombatTitle
    simp only [hfind, he]
  · intro he
    unfold CombatDetector.generateCombatTitle
    simp only [hfind, he]

/-- C9 amended witness: the concrete one-enemy encounter. -/
theorem c9_amended_witness :
    CombatDetector.generateCombatTitle ctxIdle c9Open c9Msgs =
      strTrim (CombatDetector.stripDigitChars "Go2blin") ++ " Encounter" :=
  (c9_amended ctxIdle c9Open c9Msgs (by decide)).1 "Go2blin" [] (by decide)

/-- C2 counterexample: appending the result of processing the same batch a
second time changes the archive (here it differs from the single append, with
originalMessageCount growing again), so the re-append is not idempotent. -/
theorem c2_counterexample :
    ArchiveManager.appendToArchive (ArchiveManager.appendToArchive c2Archive c2Data)
        c2Data ≠ ArchiveManager.appendToArchive c2Archive c2Data := by
  decide

/-- C2 amended: appendToArchive tracks no consumed record ids, so re-appending
identical pass data accumulates again: originalMessageCount and the statistics
counts are summed again, the entry list grows by the batch entries again, and
the keyword list is concatenated again; only the deduplicated actor and scene
sets are stable under the repeated append. -/
theorem c2_amended (a : ArchiveManager.ArchiveState) (d : ChatTrimmer.ArchiveData) :
    (ArchiveManager.appendToArchive (ArchiveManager.appendToArchive a d)
          d).originalMessageCount =
        (ArchiveManager.appendToArchive a d).originalMessageCount +
          d.originalMessageCount ∧
      (ArchiveManager.appendToArchive (ArchiveManager.appendToArchive a d)
          d).entries.length =
        (ArchiveManager.appendToArchive a d).entries.length + d.entries.length ∧
      (ArchiveManager.appendToArchive (ArchiveManager.appendToArchive a d)
          d).statistics.totalRolls =
        (ArchiveManager.appendToArchive a d).statistics.totalRolls +
          d.stats.totalRolls ∧
      (ArchiveManager.appendToArchive (ArchiveManager.appendToArchive a d)
          d).searchIndex.keywords =
        (ArchiveManager.appendToArchive a d).searchIndex.keywords ++
          d.searchIndex.keywords ∧
      (ArchiveManager.appendToArchive (ArchiveManager.appendToArchive a d)
          d).searchIndex.actors =
        (ArchiveManager.appendToArchive a d).searchIndex.actors ∧
      (ArchiveManager.appendToArchive (ArchiveManager.appendToArchive a d)
          d).searchIndex.scenes =
        (ArchiveManager.appendToArchive a d).searchIndex.scenes := by
  refine ⟨rfl, ?_, rfl, rfl, ?_, ?_⟩
  · show (sortByKey (fun e => e.timestamp)
        ((ArchiveManager.appendToArchive a d).entries ++ d.entries)).length = _
    rw [sortByKey_length, List.length_append]
  · show jsSetDedup ((ArchiveManager.appendToArchive a d).searchIndex.actors ++
        d.searchIndex.actors) = (ArchiveManager.appendToArchive a d).searchIndex.actors
    have habs : ∀ b ∈ d.searchIndex.actors,
        b ∈ (ArchiveManager.appendToArchive a d).searchIndex.actors := by
      intro b hb
      show b ∈ jsSetDedup (a.searchIndex.actors ++ d.searchIndex.actors)
      exact mem_jsSetDedup.mpr (List.mem_append_right _ hb)
    rw [jsSetDedup_append_absorb _ _ habs]
    exact jsSetDedup_idem _
  · show jsSetDedup ((ArchiveManager.appendToArchive a d).searchIndex.scenes ++
        d.searchIndex.scenes) = (ArchiveManager.appendToArchive a d).searchIndex.scenes
    have habs : ∀ b ∈ d.searchIndex.scenes,
        b ∈ (ArchiveManager.appendToArchive a d).searchIndex.scenes := by
      intro b hb
      show b ∈ jsSetDedup (a.searchIndex.scenes ++ d.searchIndex.scenes)
      exact mem_jsSetDedup.mpr (List.mem_append_right _ hb)
    rw [jsSetDedup_append_absorb _ _ habs]
    exact jsSetDedup_idem _

/-- C5 counterexample: with a failing storage backend, trim returns null: the
already-computed in-memory result is discarded, not returned (the identical
call with a succeeding backend does return a result). No source record is
deleted either way before the create call succeeds. -/
theorem c5_counterexample :
    (ChatTrimmer.trim ctxIdle settingsArchiveAll optionsDefault c5Msgs
        emptySearchIndexFn failBackend).result = none ∧
      (ChatTrimmer.trim ctxIdle settingsArchiveAll optionsDefault c5Msgs
        emptySearchIndexFn failBackend).deletedIds = [] ∧
      (ChatTrimmer.trim ctxIdle settingsArchiveAll optionsDefault c5Msgs
        emptySearchIndexFn okBackend).result ≠ none :=
  ⟨by decide, by decide, by decide⟩

/-- C5 amended: when archiving is enabled and the storage create call fails,
trim catches the error and returns null with nothing deleted and nothing
persisted: the source records are untouched, but the in-memory result is
discarded rather than returned. -/
theorem c5_amended {H : Type} (ctx : GameCtx) (settings : ChatTrimmer.TrimSettings)
    (opts : ChatTrimmer.TrimOptions) (msgs : List Msg)
    (bsi : List ChatTrimmer.Entry → ChatTrimmer.SearchIndex)
    (backend : ChatTrimmer.ArchiveData → Except Unit H)
    (harch : settings.enableArchiving = true)
    (hfail : ∀ d, backend d = .error ()) :
    (ChatTrimmer.trim ctx settings opts msgs bsi backend).result = none ∧
      (ChatTrimmer.trim ctx settings opts msgs bsi backend).deletedIds = [] ∧
      (ChatTrimmer.trim ctx settings opts msgs bsi backend).created = none := by
  simp only [ChatTrimmer.trim, harch, hfail, Bool.not_true, Bool.false_eq_true,
    if_false, ite_self]
  refine ⟨?_, ?_, ?_⟩ <;> trivial

/-- C5 amended witness: the concrete one-message batch with the failing
backend. -/
theorem c5_amended_witness :
    (ChatTrimmer.trim ctxIdle settingsArchiveAll optionsDefault c5Msgs
        emptySearchIndexFn failBackend).result = none ∧
      (ChatTrimmer.trim ctxIdle settingsArchiveAll optionsDefault c5Msgs
        emptySearchIndexFn failBackend).deletedIds = [] ∧
      (ChatTrimmer.trim ctxIdle settingsArchiveAll optionsDefault c5Msgs
        emptySearchIndexFn failBackend).created = none :=
  c5_amended ctxIdle settingsArchiveAll optionsDefault c5Msgs emptySearchIndexFn
    failBackend rfl (fun _ => rfl)

/-- With the keep setting zero, a trim call neither deletes nor archives ids
outside the given batch: every deleted id and every id inside created archive
data is an input id. -/
theorem trim_core_ids {H : Type} (ctx : GameCtx)
    (settings : ChatTrimmer.TrimSettings) (opts : ChatTrimmer.TrimOptions)
    (msgs : List Msg) (bsi : List ChatTrimmer.Entry → ChatTrimmer.SearchIndex)
    (backend : ChatTrimmer.ArchiveData → Except Unit H)
    (hkeep0 : settings.messagesToKeep = 0)
    (hnd : (msgs.map (fun m => m.id)).Nodup) :
    (∀ i ∈ (ChatTrimmer.trim ctx settings opts msgs bsi backend).deletedIds,
        i ∈ msgs.map (fun m => m.id)) ∧
      (∀ data, (ChatTrimmer.trim ctx settings opts msgs bsi backend).created = some data →
        ∀ i ∈ data.entries.flatMap (fun e => e.originalMessageIds),
          i ∈ msgs.map (fun m => m.id)) := by
  have hc : (decide (settings.messagesToKeep > 0)) = false := by
    simp [hkeep0]
  constructor
  · simp only [ChatTrimmer.trim, hc, Bool.and_false, Bool.false_and,
      Bool.false_eq_true, if_false]
    intro i hi
    repeat' split at hi
    all_goals first
      | exact hi
      | simp at hi
  · simp only [ChatTrimmer.trim, hc, Bool.and_false, Bool.false_and,
      Bool.false_eq_true, if_false]
    intro data hd
    repeat' split at hd
    all_goals cases hd
    all_goals intro i hi
    all_goals first
      | exact ((createArchiveEntries_ids_perm ctx _ msgs hnd
          (detect_ids_sublist ctx _)).mem_iff).mp hi
      | exact ((createArchiveEntries_ids_perm ctx [] msgs hnd
          (List.nil_sublist _)).mem_iff).mp hi

/-- With a positive keep setting, ignoreKeep unset and more messages than the
limit, trim behaves exactly like a keep-free trim of the oldest
(length − keep) messages. -/
theorem trim_keep_slice {H : Type} (ctx : GameCtx)
    (settings : ChatTrimmer.TrimSettings) (opts : ChatTrimmer.TrimOptions)
    (msgs : List Msg) (bsi : List ChatTrimmer.Entry → ChatTrimmer.SearchIndex)
    (backend : ChatTrimmer.ArchiveData → Except Unit H)
    (hk : 0 < settings.messagesToKeep) (hik : opts.ignoreKeep = false)
    (hlt : settings.messagesToKeep < msgs.length) :
    ChatTrimmer.trim ctx settings opts msgs bsi backend =
      ChatTrimmer.trim ctx { settings with messagesToKeep := 0 } opts
        (msgs.take (msgs.length - settings.messagesToKeep)) bsi backend := by
  have hd1 : (decide (settings.messagesToKeep > 0)) = true := by simp [hk]
  have hd2 : (decide (msgs.length ≤ settings.messagesToKeep)) = false := by
    simp only [decide_eq_false_iff_not]
    omega
  simp only [ChatTrimmer.trim, hik, hd1, hd2, Bool.not_false, Bool.true_and,
    Bool.and_false, Bool.and_true, Bool.false_and, Bool.false_eq_true, if_false,
    gt_iff_lt, Nat.lt_irrefl, decide_eq_true_eq, if_true]
  rfl

/-- C10: with a positive messagesToKeep and ignoreKeep unset, a trim call with
at most messagesToKeep messages returns null without creating an archive or
deleting anything; with more messages, only the oldest (length − keep)
messages are processed: every deleted id and every id inside the created
archive data comes from that oldest prefix, and the ids of the most recent
keep messages are neither deleted nor archived. -/
theorem c10_keep_logic {H : Type} (ctx : GameCtx)
    (settings : ChatTrimmer.TrimSettings) (opts : ChatTrimmer.TrimOptions)
    (msgs : List Msg) (bsi : List ChatTrimmer.Entry → ChatTrimmer.SearchIndex)
    (backend : ChatTrimmer.ArchiveData → Except Unit H)
    (hk : 0 < settings.messagesToKeep) (hik : opts.ignoreKeep = false)
    (hnd : (msgs.map (fun m => m.id)).Nodup) :
    (msgs.length ≤ settings.messagesToKeep →
      ChatTrimmer.trim ctx settings opts msgs bsi backend =
        { result := none, deletedIds := [], created := none }) ∧
    (settings.messagesToKeep < msgs.length →
      (∀ i ∈ (ChatTrimmer.trim ctx settings opts msgs bsi backend).deletedIds,
          i ∈ (msgs.take (msgs.length - settings.messagesToKeep)).map
            (fun m => m.id)) ∧
      (∀ data,
          (ChatTrimmer.trim ctx settings opts msgs bsi backend).created = some data →
          ∀ i ∈ data.entries.flatMap (fun e => e.originalMessageIds),
            i ∈ (msgs.take (msgs.length - settings.messagesToKeep)).map
              (fun m => m.id)) ∧
      (∀ i ∈ (msgs.drop (msgs.length - settings.messagesToKeep)).map
            (fun m => m.id),
          i ∉ (ChatTrimmer.trim ctx settings opts msgs bsi backend).deletedIds ∧
          ∀ data,
            (ChatTrimmer.trim ctx settings opts msgs bsi backend).created =
              some data →
            i ∉ data.entries.flatMap (fun e => e.originalMessageIds))) := by
  constructor
  · intro hle
    have hc1 : (!opts.ignoreKeep && decide (settings.messagesToKeep > 0) &&
        decide (msgs.length ≤ settings.messagesToKeep)) = true := by
      simp [hik, hk, hle]
    simp only [ChatTrimmer.trim, hc1, if_true]
  · intro hlt
    have heq := trim_keep_slice ctx settings opts msgs bsi backend hk hik hlt
    have hndtake : ((msgs.take (msgs.length - settings.messagesToKeep)).map
        (fun m => m.id)).Nodup := by
      rw [List.map_take]
      exact List.Nodup.sublist (List.take_sublist _ _) hnd
    have hcore := trim_core_ids ctx { settings with messagesToKeep := 0 } opts
      (msgs.take (msgs.length - settings.messagesToKeep)) bsi backend rfl hndtake
    rw [heq]
    refine ⟨hcore.1, hcore.2, ?_⟩
    intro i hi
    have hdisj : ((msgs.map (fun m => m.id)).take
        (msgs.length - settings.messagesToKeep)).Disjoint
        ((msgs.map (fun m => m.id)).drop (msgs.length - settings.messagesToKeep)) :=
      List.disjoint_take_drop hnd (le_refl _)
    have hni : i ∉ (msgs.take (msgs.length - settings.messagesToKeep)).map
        (fun m => m.id) := by
      rw [List.map_take]
      intro hmem
      exact hdisj hmem (by rwa [List.map_drop] at hi)
    exact ⟨fun hdi => hni (hcore.1 i hdi),
           fun data hd hmem => hni (hcore.2 data hd i hmem)⟩

/-- C10 witness: a three-message batch with keep = 2 processes only the oldest
message; the two most recent ids are untouched. -/
theorem c10_witness :
    (0 < c10Settings.messagesToKeep) ∧ (optionsDefault.ignoreKeep = false) ∧
      (c10Msgs.map (fun m => m.id)).Nodup ∧
      (c10Settings.messagesToKeep < c10Msgs.length) ∧
      (∀ i ∈ (ChatTrimmer.trim ctxIdle c10Settings optionsDefault c10Msgs
            emptySearchIndexFn okBackend).deletedIds,
        i ∈ (c10Msgs.take (c10Msgs.length - c10Settings.messagesToKeep)).map
          (fun m => m.id)) :=
  ⟨by decide, rfl, by decide, by decide,
    ((c10_keep_logic ctxIdle c10Settings optionsDefault c10Msgs emptySearchIndexFn
      okBackend (by decide) rfl (by decide)).2 (by decide)).1⟩

set_option maxRecDepth 100000 in
set_option maxHeartbeats 2000000 in
/-- C6: the 47-record scenario (one initiative-start record, 44 in-combat
records with one critical hit and one death, one combat-end record) yields
exactly one combat-summary entry absorbing all 47 records in order, with
rounds.length at least 1, compressedEntryCount 1, and a reported compression
ratio of round((47 - 1) / 47 * 100) = 98. -/
theorem c6_scenario :
    c6Msgs.length = 47 ∧
      c6Detected.length = 1 ∧
      c6Entries.map (fun e => e.type) = ["combat"] ∧
      c6Entries.map (fun e => e.originalMessageIds) = [c6Msgs.map (fun m => m.id)] ∧
      c6Entries.all (fun e => decide (1 ≤ e.summary.elim 0 (fun s => s.rounds.length)))
        = true ∧
      c6Outcome.created.map (fun d => d.compressedEntryCount) = some 1 ∧
      c6Outcome.result.map (fun r => r.compressionRatio) = some 98 :=
  ⟨by decide, by decide, by decide, by decide, by decide, by decide, by decide⟩
